import Mathlib

/-!
# GATT battery query example: scan/connect orchestration and its blacklist

A shallow embedding of `example/gatt_battery_query.c`.  The static variables of
the C file become the fields of `State`; every handler becomes a function from
the state before the call to the state after it together with the list of
calls it made into the stack, in program order.  `printf` output is not
recorded: it is logging only and changes no variable.
-/

namespace BatteryQuery

/-! ## Data model -/

/-- A device address, `bd_addr_t` = `uint8_t[6]`. -/
structure bd_addr_t where
  b0 : Fin 256
  b1 : Fin 256
  b2 : Fin 256
  b3 : Fin 256
  b4 : Fin 256
  b5 : Fin 256
  deriving DecidableEq, Repr

/-- The all-zero address, the content of a zero-initialised `bd_addr_t`. -/
def bd_addr_zero : bd_addr_t := ⟨0, 0, 0, 0, 0, 0⟩

/-- The six bytes of an address in memory order. -/
def bd_addr_t.bytes (a : bd_addr_t) : List (Fin 256) :=
  [a.b0, a.b1, a.b2, a.b3, a.b4, a.b5]

/-- Byte-wise comparison of two equally long buffers, as C `memcmp`: zero when
all bytes agree, otherwise the difference of the first pair that differs. -/
def memcmp : List (Fin 256) → List (Fin 256) → Int
  | x :: xs, y :: ys => if x = y then memcmp xs ys else (x.val : Int) - (y.val : Int)
  | _, _ => 0

/-- Modelled from the spec: `bd_addr_cmp` is defined in BTstack's utility
module, which is not among the sources.  The spec says a device address is a
6-byte value "compared by exact byte equality"; the function is a `memcmp` over
the six bytes and returns 0 exactly on equal addresses. -/
def bd_addr_cmp (a b : bd_addr_t) : Int := memcmp a.bytes b.bytes

/-- The anonymous enum behind `app_state`. -/
inductive app_state_t where
  | APP_STATE_IDLE
  | APP_STATE_W4_SCAN_RESULT
  | APP_STATE_W4_CONNECT
  | APP_STATE_CONNECTED
  deriving DecidableEq, Repr

/-- The struct `advertising_report_t`; `data` is the pointer value. -/
structure advertising_report_t where
  type : Nat
  event_type : Nat
  address_type : Nat
  address : bd_addr_t
  rssi : Nat
  length : Nat
  data : Nat
  deriving DecidableEq, Repr

/-- The static variables of the file. -/
structure State where
  app_state : app_state_t
  blacklist_index : Nat
  blacklist : List bd_addr_t
  report : advertising_report_t
  connection_handle : Nat
  battery_service_cid : Nat
  cmdline_addr : bd_addr_t
  cmdline_addr_found : Int
  deriving DecidableEq, Repr

/-- Modelled from the spec: `HCI_CON_HANDLE_INVALID` comes from a BTstack header
that is not among the sources; the spec calls it the "explicit invalid
sentinel" of a connection handle.  BTstack defines it as `0xffff`. -/
def HCI_CON_HANDLE_INVALID : Nat := 0xffff

/-- Modelled from the spec: `HCI_STATE_WORKING`, the value of the stack state
that the spec calls "transport-ready"; third member of BTstack's `HCI_STATE`
enum, whose header is not among the sources. -/
def HCI_STATE_WORKING : Nat := 2

/-- Modelled from the spec: `ERROR_CODE_SUCCESS`, the status the spec calls
"success" of a service-connect-result; 0 in the Bluetooth error code table. -/
def ERROR_CODE_SUCCESS : Nat := 0

/-- Modelled from the spec: `ATT_ERROR_SUCCESS`, the protocol-level status the
spec calls read success; 0 in the ATT error code table. -/
def ATT_ERROR_SUCCESS : Nat := 0

/-- The first argument of a packet handler, compared only against
`HCI_EVENT_PACKET`; every other value is `other n`. -/
inductive packet_type_t where
  | HCI_EVENT_PACKET
  | other (n : Nat)
  deriving DecidableEq, Repr

/-- What `hci_event_gap_meta_get_subevent_code` and, for a connection complete
subevent, `gap_subevent_le_connection_complete_get_connection_handle` read from
a GAP meta event. -/
inductive gap_subevent_t where
  | GAP_SUBEVENT_LE_CONNECTION_COMPLETE (connection_handle : Nat)
  | other (code : Nat)
  deriving DecidableEq, Repr

/-- What `hci_event_gattservice_meta_get_subevent_code` and the getters of the
two battery service subevents read from a GATT service meta event. -/
inductive gattservice_subevent_t where
  | GATTSERVICE_SUBEVENT_BATTERY_SERVICE_CONNECTED (status num_instances poll_bitmap : Nat)
  | GATTSERVICE_SUBEVENT_BATTERY_SERVICE_LEVEL (att_status sevice_index level : Nat)
  | other (code : Nat)
  deriving DecidableEq, Repr

/-- An event packet as the handlers see it through the BTstack getters (which
are not among the sources): the discriminant returned by
`hci_event_packet_get_type`, one constructor per `case` label of the two
handlers, with the fields the getters of that event return.  Every event type
without a `case` label is `other code`. -/
inductive packet_t where
  | BTSTACK_EVENT_STATE (state : Nat)
  | GAP_EVENT_ADVERTISING_REPORT (advertising_event_type address_type : Nat)
      (address : bd_addr_t) (rssi : Nat) (data : List Nat)
  | HCI_EVENT_META_GAP (subevent : gap_subevent_t)
  | HCI_EVENT_DISCONNECTION_COMPLETE
  | HCI_EVENT_GATTSERVICE_META (subevent : gattservice_subevent_t)
  | other (code : Nat)
  deriving DecidableEq, Repr

/-- The calls a handler makes into the stack and the battery service client. -/
inductive Action where
  | gap_connect (addr : bd_addr_t) (addr_type : Nat)
  | gap_set_scan_parameters (scan_type scan_interval scan_window : Nat)
  | gap_start_scan
  | gap_stop_scan
  | gap_disconnect (handle : Nat)
  | battery_service_client_connect (con_handle poll_interval_ms : Nat)
  | battery_service_client_disconnect (cid : Nat)
  | battery_service_client_read_battery_level (cid index : Nat)
  deriving DecidableEq, Repr

/-! ## The blacklist -/

/-- The number of slots, `sizeof(blacklist) / sizeof(bd_addr_t)` for
`bd_addr_t blacklist[20]` with 6-byte addresses. -/
def blacklist_size : Nat := (20 * 6) / 6

/-- The `for` loop of `blacklist_contains` from index `i` with `n` iterations
left: return 1 at the first slot equal to `addr`, 0 when the loop runs out. -/
def blacklist_contains_loop (blacklist : List bd_addr_t) (addr : bd_addr_t) : Nat → Nat → Int
  | _, 0 => 0
  | i, n + 1 =>
    if bd_addr_cmp addr (blacklist.getD i bd_addr_zero) = 0 then 1
    else blacklist_contains_loop blacklist addr (i + 1) n

/-- The function `blacklist_contains`: scan of the slots `0 .. blacklist_size()-1`. -/
def blacklist_contains (s : State) (addr : bd_addr_t) : Int :=
  blacklist_contains_loop s.blacklist addr 0 blacklist_size

/-- The function `add_to_blacklist`: copy `addr` into the slot at the cursor,
then advance the cursor modulo `blacklist_size()`. -/
def add_to_blacklist (s : State) (addr : bd_addr_t) : State :=
  { s with
    blacklist := s.blacklist.set s.blacklist_index addr
    blacklist_index := (s.blacklist_index + 1) % blacklist_size }

/-! ## The two packet handlers -/

/-- The function `hci_event_handler`.  `cid_out` is the value that
`battery_service_client_connect` stores through `&battery_service_cid`
(`none` when it stores nothing). -/
def hci_event_handler (s : State) (packet_type : packet_type_t) (packet : packet_t)
    (cid_out : Option Nat) : State × List Action :=
  match packet_type with
  | .other _ => (s, [])
  | .HCI_EVENT_PACKET =>
    match packet with
    | .BTSTACK_EVENT_STATE state =>
      if state ≠ HCI_STATE_WORKING then (s, [])
      else if s.cmdline_addr_found ≠ 0 then
        ({ s with app_state := .APP_STATE_W4_CONNECT }, [.gap_connect s.cmdline_addr 0])
      else
        ({ s with app_state := .APP_STATE_W4_SCAN_RESULT },
          [.gap_set_scan_parameters 0 0x0030 0x0030, .gap_start_scan])
    | .GAP_EVENT_ADVERTISING_REPORT _ address_type address _ _ =>
      if s.app_state ≠ .APP_STATE_W4_SCAN_RESULT then (s, [])
      else
        let s1 : State :=
          { s with report := { s.report with address := address, address_type := address_type } }
        if blacklist_contains s1 s1.report.address ≠ 0 then (s1, [])
        else
          ({ s1 with app_state := .APP_STATE_W4_CONNECT },
            [.gap_stop_scan, .gap_connect s1.report.address s1.report.address_type])
    | .HCI_EVENT_META_GAP subevent =>
      match subevent with
      | .other _ => (s, [])
      | .GAP_SUBEVENT_LE_CONNECTION_COMPLETE handle =>
        if s.app_state ≠ .APP_STATE_W4_CONNECT then (s, [])
        else
          ({ s with
              connection_handle := handle
              battery_service_cid := cid_out.getD s.battery_service_cid
              app_state := .APP_STATE_CONNECTED },
            [.battery_service_client_connect handle 2000])
    | .HCI_EVENT_DISCONNECTION_COMPLETE =>
      let s1 : State := { s with connection_handle := HCI_CON_HANDLE_INVALID }
      if s1.cmdline_addr_found ≠ 0 then
        (s1, [.battery_service_client_disconnect s1.battery_service_cid])
      else
        ({ s1 with app_state := .APP_STATE_W4_SCAN_RESULT },
          [.battery_service_client_disconnect s1.battery_service_cid, .gap_start_scan])
    | .HCI_EVENT_GATTSERVICE_META _ => (s, [])
    | .other _ => (s, [])

/-- The function `gatt_client_event_handler`; `packet_type` is unused there. -/
def gatt_client_event_handler (s : State) (_packet_type : packet_type_t) (packet : packet_t) :
    State × List Action :=
  match packet with
  | .HCI_EVENT_GATTSERVICE_META subevent =>
    match subevent with
    | .GATTSERVICE_SUBEVENT_BATTERY_SERVICE_CONNECTED status _ _ =>
      if status = ERROR_CODE_SUCCESS then
        (s, [.battery_service_client_read_battery_level s.battery_service_cid 0])
      else
        let s1 := add_to_blacklist s s.report.address
        (s1, [.gap_disconnect s1.connection_handle])
    | .GATTSERVICE_SUBEVENT_BATTERY_SERVICE_LEVEL _ _ _ => (s, [])
    | .other _ => (s, [])
  | _ => (s, [])

/-! ## Event sequences -/

/-- One inbound event: a packet delivered to one of the two handlers. -/
inductive Event where
  | hci (packet_type : packet_type_t) (packet : packet_t) (cid_out : Option Nat)
  | gatt (packet_type : packet_type_t) (packet : packet_t)
  deriving DecidableEq, Repr

/-- Deliver one event to its handler. -/
def handle (s : State) : Event → State × List Action
  | .hci packet_type packet cid_out => hci_event_handler s packet_type packet cid_out
  | .gatt packet_type packet => gatt_client_event_handler s packet_type packet

/-- The state after a sequence of events, processed strictly in order. -/
def run (s : State) (es : List Event) : State :=
  es.foldl (fun st e => (handle st e).1) s

/-- All calls made while a sequence of events is processed, in order. -/
def actions : State → List Event → List Action
  | _, [] => []
  | s, e :: es => (handle s e).2 ++ actions (handle s e).1 es

/-- The zero-initialised statics, before `btstack_main` runs. -/
def static_init : State :=
  { app_state := .APP_STATE_IDLE
    blacklist_index := 0
    blacklist := List.replicate 20 bd_addr_zero
    report := ⟨0, 0, 0, bd_addr_zero, 0, 0, 0⟩
    connection_handle := 0
    battery_service_cid := 0
    cmdline_addr := bd_addr_zero
    cmdline_addr_found := 0 }

/-- The statics when `btstack_main` returns 0: `app_state` is set to idle, and
when an address was parsed it is in `cmdline_addr` with `cmdline_addr_found`
the 1 that the parser returned. -/
def initial_state : Option bd_addr_t → State
  | none => { static_init with app_state := .APP_STATE_IDLE, cmdline_addr_found := 0 }
  | some a =>
    { static_init with app_state := .APP_STATE_IDLE, cmdline_addr := a, cmdline_addr_found := 1 }

/-- The blacklist after inserting the addresses of `xs` one after the other. -/
def insert_all (s : State) (xs : List bd_addr_t) : State :=
  xs.foldl add_to_blacklist s

/-! ## The inbound events in the vocabulary of the transition table -/

/-- The event transport-ready: a `BTSTACK_EVENT_STATE` event packet whose state
is `HCI_STATE_WORKING`, delivered to `hci_event_handler`. -/
def transport_ready (c : Option Nat) : Event :=
  .hci .HCI_EVENT_PACKET (.BTSTACK_EVENT_STATE HCI_STATE_WORKING) c

/-- The event advertisement-received for address `a` of type `t`; `et`, `rssi`
and `data` are the fields that are only printed. -/
def advertisement (a : bd_addr_t) (t et rssi : Nat) (data : List Nat) (c : Option Nat) : Event :=
  .hci .HCI_EVENT_PACKET (.GAP_EVENT_ADVERTISING_REPORT et t a rssi data) c

/-- The event link-established with connection handle `h`; `c` is what the
battery service client stores as its connection id. -/
def link_established (h : Nat) (c : Option Nat) : Event :=
  .hci .HCI_EVENT_PACKET (.HCI_EVENT_META_GAP (.GAP_SUBEVENT_LE_CONNECTION_COMPLETE h)) c

/-- The event link-disconnected. -/
def link_disconnected (c : Option Nat) : Event :=
  .hci .HCI_EVENT_PACKET .HCI_EVENT_DISCONNECTION_COMPLETE c

/-- The event service-connect-result with the given status, delivered to
`gatt_client_event_handler`. -/
def service_connect_result (pt : packet_type_t) (status num_instances poll_bitmap : Nat) : Event :=
  .gatt pt (.HCI_EVENT_GATTSERVICE_META
    (.GATTSERVICE_SUBEVENT_BATTERY_SERVICE_CONNECTED status num_instances poll_bitmap))

/-- The event value-read-result with the given ATT status. -/
def value_read_result (pt : packet_type_t) (att_status sevice_index level : Nat) : Event :=
  .gatt pt (.HCI_EVENT_GATTSERVICE_META
    (.GATTSERVICE_SUBEVENT_BATTERY_SERVICE_LEVEL att_status sevice_index level))

/-- The event kinds of the transition table of the specification. -/
inductive event_kind_t where
  | transport_ready
  | advertisement_received
  | link_established
  | link_disconnected
  | service_connect_result (success : Bool)
  | value_read_result (success : Bool)
  | unrecognised
  deriving DecidableEq, Repr

/-- The kind of an inbound event: the `case` label it reaches in the handler it
is delivered to, named as in the transition table; `unrecognised` when it
reaches no label. -/
def spec_event_kind : Event → event_kind_t
  | .hci .HCI_EVENT_PACKET (.BTSTACK_EVENT_STATE state) _ =>
    if state = HCI_STATE_WORKING then .transport_ready else .unrecognised
  | .hci .HCI_EVENT_PACKET (.GAP_EVENT_ADVERTISING_REPORT _ _ _ _ _) _ => .advertisement_received
  | .hci .HCI_EVENT_PACKET (.HCI_EVENT_META_GAP (.GAP_SUBEVENT_LE_CONNECTION_COMPLETE _)) _ =>
    .link_established
  | .hci .HCI_EVENT_PACKET .HCI_EVENT_DISCONNECTION_COMPLETE _ => .link_disconnected
  | .gatt _ (.HCI_EVENT_GATTSERVICE_META
      (.GATTSERVICE_SUBEVENT_BATTERY_SERVICE_CONNECTED status _ _)) =>
    .service_connect_result (decide (status = ERROR_CODE_SUCCESS))
  | .gatt _ (.HCI_EVENT_GATTSERVICE_META
      (.GATTSERVICE_SUBEVENT_BATTERY_SERVICE_LEVEL att_status _ _)) =>
    .value_read_result (decide (att_status = ATT_ERROR_SUCCESS))
  | _ => .unrecognised

/-- The event trace of a failed service handshake: the advertisement of `X`, the
link coming up with handle `h`, a service-connect-result with `status`, and the
link going down. -/
def failure_trace (X : bd_addr_t) (t et rssi : Nat) (data : List Nat) (h : Nat)
    (pt : packet_type_t) (status num_instances poll_bitmap : Nat)
    (c1 c2 c4 : Option Nat) : List Event :=
  [advertisement X t et rssi data c1, link_established h c2,
    service_connect_result pt status num_instances poll_bitmap, link_disconnected c4]

/-- The last `min k 20` addresses of a sequence of `k` insertions. -/
def last_inserted (xs : List bd_addr_t) : List bd_addr_t :=
  xs.drop (xs.length - min xs.length 20)

/-- An address whose last byte is `n` and whose other bytes are zero. -/
def addr_of_nat (n : Nat) : bd_addr_t := ⟨0, 0, 0, 0, 0, Fin.ofNat n⟩

/-- The invariant of the C array and its cursor: 20 slots, cursor in `0..19`. -/
def blacklist_wf (s : State) : Prop :=
  s.blacklist.length = 20 ∧ s.blacklist_index < 20

instance (s : State) : Decidable (blacklist_wf s) := by
  unfold blacklist_wf; infer_instance

/-! ## Start-up -/

/-- The calls that `battery_service_client_setup` and `btstack_main` make into
the stack before the event loop runs. -/
inductive setup_call_t where
  | l2cap_init
  | att_server_init
  | gatt_client_init
  | battery_service_client_init
  | sm_init
  | sm_set_io_capabilities_no_input_no_output
  | hci_add_event_handler
  | hci_power_control_on
  deriving DecidableEq, Repr

/-- The function `battery_service_client_setup`: its calls in program order. -/
def battery_service_client_setup : List setup_call_t :=
  [.l2cap_init, .att_server_init, .gatt_client_init, .battery_service_client_init,
    .sm_init, .sm_set_io_capabilities_no_input_no_output, .hci_add_event_handler]

/-- The `for` loop of `btstack_main` over the arguments `argv[arg], ...` still to
be visited.  `sscanf_bd_addr` is the BTstack parser, which is not among the
sources: given the text and the present content of the output buffer it
returns its `int` result and the new content of the buffer.  `Except.error` is
the `return 1` after the usage message, `Except.ok` the normal end of the loop;
both carry the statics at that point. -/
def btstack_main_loop (sscanf_bd_addr : String → bd_addr_t → Int × bd_addr_t) :
    List String → State → Except State State
  | [], s => .ok s
  | [a], s =>
    if a = "-a" ∨ a = "--address" then
      -- `arg + 1 < argc` is false: nothing is parsed, the flag variable is tested as it is
      if s.cmdline_addr_found = 0 then .error s else .ok s
    else .ok s
  | a :: v :: rest, s =>
    if a = "-a" ∨ a = "--address" then
      let r := sscanf_bd_addr v s.cmdline_addr
      let s1 : State := { s with cmdline_addr_found := r.1, cmdline_addr := r.2 }
      if s1.cmdline_addr_found = 0 then .error s1
      else btstack_main_loop sscanf_bd_addr rest s1
    else btstack_main_loop sscanf_bd_addr (v :: rest) s

/-- The function `btstack_main` on the argument vector `argv` (`argv[0]` is
the program name): the exit code, the statics on return, and the calls made
into the stack. -/
def btstack_main (sscanf_bd_addr : String → bd_addr_t → Int × bd_addr_t)
    (argv : List String) (s : State) : Int × State × List setup_call_t :=
  match btstack_main_loop sscanf_bd_addr (argv.drop 1) { s with cmdline_addr_found := 0 } with
  | .error s1 => (1, s1, [])
  | .ok s1 =>
    (0, { s1 with app_state := .APP_STATE_IDLE },
      battery_service_client_setup ++ [.hci_power_control_on])

/-- A sample address parser for concrete runs: it accepts the text
`00:11:22:33:44:55` and nothing else, and leaves the buffer alone on failure. -/
def sample_sscanf_bd_addr (str : String) (addr : bd_addr_t) : Int × bd_addr_t :=
  if str = "00:11:22:33:44:55" then (1, ⟨0x00, 0x11, 0x22, 0x33, 0x44, 0x55⟩) else (0, addr)

/-! ## Helpers to state the claims on event sequences -/

/-- Whether a call is a `gap_connect`. -/
def Action.is_connect : Action → Bool
  | .gap_connect _ _ => true
  | _ => false

/-- The arguments of the last `gap_connect` in a list of calls, if any. -/
def last_connect (acts : List Action) : Option (bd_addr_t × Nat) :=
  acts.foldl
    (fun acc act =>
      match act with
      | .gap_connect addr addr_type => some (addr, addr_type)
      | _ => acc)
    none

/-- The fields of one advertising report event. -/
structure adv_t where
  address : bd_addr_t
  address_type : Nat
  advertising_event_type : Nat
  rssi : Nat
  data : List Nat
  cid_out : Option Nat
  deriving DecidableEq, Repr

/-- The advertisement-received event with the given fields. -/
def adv_t.event (r : adv_t) : Event :=
  advertisement r.address r.address_type r.advertising_event_type r.rssi r.data r.cid_out

/-- Where a run stands with respect to links, in the words of the claim on
the connection handle: no link-established event accepted so far and no
link-disconnected event seen, inside a link (after an accepted
link-established, before the next link-disconnected), or after a
link-disconnected event with no link-established accepted since. -/
inductive link_phase_t where
  | initial
  | linked
  | unlinked
  deriving DecidableEq, Repr

/-- The phase after one more event `e`, handled in state `s`: a
link-established event is accepted exactly in `APP_STATE_W4_CONNECT`. -/
def link_phase_step (s : State) (ph : link_phase_t) : Event → link_phase_t
  | .hci .HCI_EVENT_PACKET (.HCI_EVENT_META_GAP (.GAP_SUBEVENT_LE_CONNECTION_COMPLETE _)) _ =>
    if s.app_state = .APP_STATE_W4_CONNECT then .linked else ph
  | .hci .HCI_EVENT_PACKET .HCI_EVENT_DISCONNECTION_COMPLETE _ => .unlinked
  | _ => ph

/-- The phase after a sequence of events processed from state `s` in phase `ph`. -/
def link_phase : State → link_phase_t → List Event → link_phase_t
  | _, ph, [] => ph
  | s, ph, e :: es => link_phase (handle s e).1 (link_phase_step s ph e) es

/-! ## Lemmas on the address comparison and the scan loop -/

theorem memcmp_eq_zero_iff (xs ys : List (Fin 256)) (h : xs.length = ys.length) :
    memcmp xs ys = 0 ↔ xs = ys := by
  induction xs generalizing ys with
  | nil =>
    cases ys with
    | nil => simp [memcmp]
    | cons y ys => simp at h
  | cons x xs ih =>
    cases ys with
    | nil => simp at h
    | cons y ys =>
      have hl : xs.length = ys.length := by simpa using h
      by_cases hxy : x = y
      · simp [memcmp, hxy, ih ys hl]
      · have hv : (x.val : Int) - (y.val : Int) ≠ 0 := by
          intro h0
          apply hxy
          apply Fin.ext
          omega
        simp [memcmp, hxy, hv]

theorem bd_addr_cmp_eq_zero_iff (a b : bd_addr_t) : bd_addr_cmp a b = 0 ↔ a = b := by
  unfold bd_addr_cmp
  rw [memcmp_eq_zero_iff _ _ (by simp [bd_addr_t.bytes])]
  cases a; cases b
  simp [bd_addr_t.bytes]

theorem blacklist_contains_loop_zero_or_one (bl : List bd_addr_t) (a : bd_addr_t) (i n : Nat) :
    blacklist_contains_loop bl a i n = 0 ∨ blacklist_contains_loop bl a i n = 1 := by
  induction n generalizing i with
  | zero => left; rfl
  | succ n ih =>
    unfold blacklist_contains_loop
    split
    · right; rfl
    · exact ih (i + 1)

theorem blacklist_contains_loop_eq_one_iff (bl : List bd_addr_t) (a : bd_addr_t) (i n : Nat) :
    blacklist_contains_loop bl a i n = 1 ↔
      ∃ j, i ≤ j ∧ j < i + n ∧ bl.getD j bd_addr_zero = a := by
  induction n generalizing i with
  | zero =>
    simp only [blacklist_contains_loop]
    constructor
    · intro h
      omega
    · rintro ⟨j, h1, h2, _⟩
      omega
  | succ n ih =>
    unfold blacklist_contains_loop
    by_cases hc : bd_addr_cmp a (bl.getD i bd_addr_zero) = 0
    · rw [if_pos hc]
      have he := (bd_addr_cmp_eq_zero_iff _ _).1 hc
      constructor
      · intro _
        exact ⟨i, le_refl i, by omega, he.symm⟩
      · intro _
        rfl
    · rw [if_neg hc, ih (i + 1)]
      have hne : bl.getD i bd_addr_zero ≠ a := by
        intro he
        exact hc ((bd_addr_cmp_eq_zero_iff _ _).2 he.symm)
      constructor
      · rintro ⟨j, h1, h2, h3⟩
        exact ⟨j, by omega, by omega, h3⟩
      · rintro ⟨j, h1, h2, h3⟩
        have hij : i ≠ j := by
          intro he
          subst he
          exact hne h3
        exact ⟨j, by omega, by omega, h3⟩

theorem blacklist_contains_eq_one_iff (s : State) (a : bd_addr_t) :
    blacklist_contains s a = 1 ↔ ∃ j, j < 20 ∧ s.blacklist.getD j bd_addr_zero = a := by
  unfold blacklist_contains
  rw [blacklist_contains_loop_eq_one_iff]
  constructor
  · rintro ⟨j, _, h2, h3⟩
    exact ⟨j, by simpa [blacklist_size] using h2, h3⟩
  · rintro ⟨j, h2, h3⟩
    exact ⟨j, Nat.zero_le j, by simpa [blacklist_size] using h2, h3⟩

theorem blacklist_contains_zero_or_one (s : State) (a : bd_addr_t) :
    blacklist_contains s a = 0 ∨ blacklist_contains s a = 1 :=
  blacklist_contains_loop_zero_or_one _ _ _ _

theorem blacklist_contains_eq_zero_iff (s : State) (a : bd_addr_t) :
    blacklist_contains s a = 0 ↔ ∀ j, j < 20 → s.blacklist.getD j bd_addr_zero ≠ a := by
  constructor
  · intro h0 j hj he
    have h1 := (blacklist_contains_eq_one_iff s a).2 ⟨j, hj, he⟩
    omega
  · intro h
    rcases blacklist_contains_zero_or_one s a with h0 | h1
    · exact h0
    · obtain ⟨j, hj, he⟩ := (blacklist_contains_eq_one_iff s a).1 h1
      exact absurd he (h j hj)

/-! ## The ring after a sequence of insertions -/

theorem blacklist_size_eq : blacklist_size = 20 := rfl

theorem insert_all_snoc (s : State) (xs : List bd_addr_t) (x : bd_addr_t) :
    insert_all s (xs ++ [x]) = add_to_blacklist (insert_all s xs) x := by
  simp [insert_all, List.foldl_append]

/-- After inserting `xs` into the zero-initialised blacklist the array still has
20 slots, the cursor is `xs.length % 20`, each of the last 20 inserted
addresses sits in the slot of its insertion number modulo 20, and the slots
never written are still zero. -/
theorem insert_all_ring (xs : List bd_addr_t) :
    (insert_all static_init xs).blacklist.length = 20 ∧
    (insert_all static_init xs).blacklist_index = xs.length % 20 ∧
    (∀ i, i < xs.length → xs.length ≤ i + 20 →
      (insert_all static_init xs).blacklist[i % 20]? = xs[i]?) ∧
    (∀ j, xs.length ≤ j → j < 20 →
      (insert_all static_init xs).blacklist[j]? = some bd_addr_zero) := by
  induction xs using List.reverseRecOn with
  | nil =>
    refine ⟨by simp [insert_all, static_init], by simp [insert_all, static_init], ?_, ?_⟩
    · intro i hi
      simp at hi
    · intro j _ hj
      have hb : (insert_all static_init []).blacklist = List.replicate 20 bd_addr_zero := rfl
      rw [hb, List.getElem?_replicate, if_pos hj]
  | append_singleton xs x ih =>
    obtain ⟨hlen, hidx, hslot, hzero⟩ := ih
    rw [insert_all_snoc]
    have hk : (xs ++ [x]).length = xs.length + 1 := by simp
    refine ⟨?_, ?_, ?_, ?_⟩
    · simp [add_to_blacklist, hlen]
    · simp only [add_to_blacklist, hidx, blacklist_size_eq, hk]
      omega
    · intro i hi hwin
      rw [hk] at hi hwin
      simp only [add_to_blacklist, hidx]
      by_cases hik : i = xs.length
      · subst hik
        rw [List.getElem?_set_self (by rw [hlen]; omega)]
        simp
      · have hlt : i < xs.length := by omega
        have hne : xs.length % 20 ≠ i % 20 := by omega
        rw [List.getElem?_set_ne hne, hslot i hlt (by omega)]
        rw [List.getElem?_append_left hlt]
    · intro j hj hj20
      rw [hk] at hj
      simp only [add_to_blacklist, hidx]
      have hne : xs.length % 20 ≠ j := by omega
      rw [List.getElem?_set_ne hne]
      exact hzero j (by omega) hj20

/-- Membership in the blacklist after inserting `xs` into the zero-initialised
array: the address is among the last 20 inserted ones, or it is the all-zero
address and fewer than 20 insertions were made. -/
theorem blacklist_contains_insert_all (xs : List bd_addr_t) (a : bd_addr_t) :
    blacklist_contains (insert_all static_init xs) a = 1 ↔
      (∃ i, i < xs.length ∧ xs.length ≤ i + 20 ∧ xs[i]? = some a) ∨
      (xs.length < 20 ∧ a = bd_addr_zero) := by
  obtain ⟨hlen, _, hslot, hzero⟩ := insert_all_ring xs
  rw [blacklist_contains_eq_one_iff]
  simp only [List.getD_eq_getElem?_getD]
  constructor
  · rintro ⟨j, hj, he⟩
    by_cases hjk : xs.length ≤ j
    · right
      rw [hzero j hjk hj] at he
      exact ⟨by omega, by simpa using he.symm⟩
    · left
      have hjk : j < xs.length := by omega
      -- the last insertion whose number is `j` modulo 20
      let i := j + 20 * ((xs.length - 1 - j) / 20)
      have hi1 : i < xs.length := by omega
      have hi2 : xs.length ≤ i + 20 := by omega
      have hi3 : i % 20 = j := by omega
      refine ⟨i, hi1, hi2, ?_⟩
      have h := hslot i hi1 hi2
      rw [hi3] at h
      rw [← h]
      have hjl : j < (insert_all static_init xs).blacklist.length := by omega
      rw [List.getElem?_eq_getElem hjl] at he ⊢
      simpa using he
  · rintro (⟨i, hi1, hi2, he⟩ | ⟨hk, ha⟩)
    · refine ⟨i % 20, by omega, ?_⟩
      rw [hslot i hi1 hi2, he]
      rfl
    · refine ⟨xs.length, hk, ?_⟩
      rw [hzero xs.length (le_refl _) hk, ha]
      rfl

theorem mem_last_inserted_iff (xs : List bd_addr_t) (a : bd_addr_t) :
    a ∈ last_inserted xs ↔ ∃ i, i < xs.length ∧ xs.length ≤ i + 20 ∧ xs[i]? = some a := by
  unfold last_inserted
  rw [List.mem_iff_getElem?]
  simp only [List.getElem?_drop]
  constructor
  · rintro ⟨n, hn⟩
    have hlt := (List.getElem?_eq_some_iff.1 hn).1
    exact ⟨xs.length - min xs.length 20 + n, hlt, by omega, hn⟩
  · rintro ⟨i, hi1, hi2, he⟩
    refine ⟨i - (xs.length - min xs.length 20), ?_⟩
    have : xs.length - min xs.length 20 + (i - (xs.length - min xs.length 20)) = i := by omega
    rw [this]
    exact he

theorem insert_all_cons_append (s : State) (pre post : List bd_addr_t) (a : bd_addr_t) :
    insert_all (add_to_blacklist (insert_all s pre) a) post = insert_all s (pre ++ a :: post) := by
  simp [insert_all, List.foldl_append]

/-! ## Claims on the blacklist -/

/-- C1: in every blacklist reached from the zero-initialised one by insertions,
`blacklist_contains a` returns 1 right after `add_to_blacklist a`, and still
returns 1 after at most 19 further insertions of arbitrary addresses. -/
theorem C1_contains_after_insert (pre : List bd_addr_t) (a : bd_addr_t)
    (post : List bd_addr_t) (hpost : post.length ≤ 19) :
    blacklist_contains (add_to_blacklist (insert_all static_init pre) a) a = 1 ∧
    blacklist_contains
      (insert_all (add_to_blacklist (insert_all static_init pre) a) post) a = 1 := by
  have key : ∀ post : List bd_addr_t, post.length ≤ 19 →
      blacklist_contains
        (insert_all (add_to_blacklist (insert_all static_init pre) a) post) a = 1 := by
    intro post hpost
    rw [insert_all_cons_append, blacklist_contains_insert_all]
    left
    refine ⟨pre.length, by simp, by simp; omega, ?_⟩
    rw [List.getElem?_append_right (le_refl _)]
    simp
  exact ⟨key [] (by simp), key post hpost⟩

theorem C1_contains_after_insert_witness :
    [addr_of_nat 7, addr_of_nat 8].length ≤ 19 ∧
    blacklist_contains
      (insert_all (add_to_blacklist (insert_all static_init [addr_of_nat 1]) (addr_of_nat 2))
        [addr_of_nat 7, addr_of_nat 8]) (addr_of_nat 2) = 1 :=
  ⟨by decide, (C1_contains_after_insert [addr_of_nat 1] (addr_of_nat 2)
    [addr_of_nat 7, addr_of_nat 8] (by decide)).2⟩

/-- C2: after inserting `n ≥ 21` pairwise distinct addresses into the
zero-initialised blacklist, `blacklist_contains` returns 1 for each of the last
20 inserted addresses and 0 for every address inserted more than 20 insertions
ago. -/
theorem C2_last_twenty_present_older_absent (xs : List bd_addr_t)
    (hn : 21 ≤ xs.length) (hd : xs.Nodup) (i : Nat) (hi : i < xs.length) :
    (xs.length ≤ i + 20 → blacklist_contains (insert_all static_init xs) xs[i] = 1) ∧
    (i + 20 < xs.length → blacklist_contains (insert_all static_init xs) xs[i] = 0) := by
  constructor
  · intro hwin
    rw [blacklist_contains_insert_all]
    left
    exact ⟨i, hi, hwin, List.getElem?_eq_getElem hi⟩
  · intro hold
    rcases blacklist_contains_zero_or_one (insert_all static_init xs) xs[i] with h0 | h1
    · exact h0
    · exfalso
      rw [blacklist_contains_insert_all] at h1
      rcases h1 with ⟨j, hj1, hj2, he⟩ | ⟨hk, _⟩
      · rw [List.getElem?_eq_getElem hj1] at he
        have hji : j = i := (hd.getElem_inj_iff).1 (Option.some.inj he)
        omega
      · omega

theorem C2_last_twenty_present_older_absent_witness :
    21 ≤ ((List.range 21).map addr_of_nat).length ∧
    blacklist_contains (insert_all static_init ((List.range 21).map addr_of_nat))
      (addr_of_nat 0) = 0 :=
  ⟨by decide,
    (C2_last_twenty_present_older_absent ((List.range 21).map addr_of_nat)
      (by decide) (by decide) 0 (by decide)).2 (by decide)⟩

/-- C3, as stated, fails on the empty blacklist: the scan covers all 20 slots,
the never written ones included, so the all-zero address is reported present
although nothing was inserted. -/
theorem C3_counterexample :
    bd_addr_zero ∉ last_inserted [] ∧
    blacklist_contains (insert_all static_init []) bd_addr_zero = 1 := by
  decide

/-- C3 (amended): after any sequence of insertions into the zero-initialised
blacklist, `blacklist_contains a` returns 0 or 1, and it returns 1 iff `a` is
one of the last `min k 20` inserted addresses, or fewer than 20 insertions were
made and `a` is the all-zero address of the slots never written. -/
theorem C3_contains_iff_recent_or_zero_slot (xs : List bd_addr_t) (a : bd_addr_t) :
    (blacklist_contains (insert_all static_init xs) a = 0 ∨
      blacklist_contains (insert_all static_init xs) a = 1) ∧
    (blacklist_contains (insert_all static_init xs) a = 1 ↔
      a ∈ last_inserted xs ∨ (xs.length < 20 ∧ a = bd_addr_zero)) := by
  refine ⟨blacklist_contains_zero_or_one _ _, ?_⟩
  rw [blacklist_contains_insert_all, mem_last_inserted_iff]

/-! ## Single insertions -/

theorem blacklist_wf_add_to_blacklist (s : State) (a : bd_addr_t) (h : blacklist_wf s) :
    blacklist_wf (add_to_blacklist s a) := by
  obtain ⟨hl, _⟩ := h
  refine ⟨by simp [add_to_blacklist, hl], ?_⟩
  simp only [add_to_blacklist, blacklist_size_eq]
  omega

theorem blacklist_contains_add_to_blacklist_self (s : State) (a : bd_addr_t)
    (h : blacklist_wf s) : blacklist_contains (add_to_blacklist s a) a = 1 := by
  obtain ⟨hl, hi⟩ := h
  rw [blacklist_contains_eq_one_iff]
  refine ⟨s.blacklist_index, hi, ?_⟩
  simp only [add_to_blacklist, List.getD_eq_getElem?_getD]
  rw [List.getElem?_set_self (by omega)]
  rfl

theorem blacklist_contains_congr (s s1 : State) (a : bd_addr_t)
    (h : s1.blacklist = s.blacklist) : blacklist_contains s1 a = blacklist_contains s a := by
  simp [blacklist_contains, h]

/-- The advertisement case of `hci_event_handler`, with the membership test
expressed on the state before the call (recording the candidate does not touch
the blacklist). -/
theorem handle_advertisement (s : State) (a : bd_addr_t) (t et rssi : Nat)
    (data : List Nat) (c : Option Nat) :
    handle s (advertisement a t et rssi data c) =
      if s.app_state ≠ .APP_STATE_W4_SCAN_RESULT then (s, [])
      else if blacklist_contains s a ≠ 0 then
        ({ s with report := { s.report with address := a, address_type := t } }, [])
      else
        ({ s with
            report := { s.report with address := a, address_type := t }
            app_state := .APP_STATE_W4_CONNECT },
          [.gap_stop_scan, .gap_connect a t]) :=
  rfl

/-! ## Claims on single events -/

/-- C8: for an address `X` that `blacklist_contains` does not report and any
address type `t`, the advertisement of `(X, t)` handled in state
`APP_STATE_W4_SCAN_RESULT` issues exactly `gap_stop_scan` followed by
`gap_connect(X, t)`, records `X` and `t` in `report`, and sets the state to
`APP_STATE_W4_CONNECT`. -/
theorem C8_advertisement_accepted (s : State) (X : bd_addr_t) (t et rssi : Nat)
    (data : List Nat) (c : Option Nat)
    (hs : s.app_state = .APP_STATE_W4_SCAN_RESULT) (hX : blacklist_contains s X = 0) :
    (handle s (advertisement X t et rssi data c)).2 = [.gap_stop_scan, .gap_connect X t] ∧
    (handle s (advertisement X t et rssi data c)).1.report.address = X ∧
    (handle s (advertisement X t et rssi data c)).1.report.address_type = t ∧
    (handle s (advertisement X t et rssi data c)).1.app_state = .APP_STATE_W4_CONNECT := by
  rw [handle_advertisement]
  simp [hs, hX]

theorem C8_advertisement_accepted_witness :
    (handle { static_init with app_state := .APP_STATE_W4_SCAN_RESULT }
      (advertisement (addr_of_nat 5) 1 0 200 [2, 1, 6] none)).2 =
        [.gap_stop_scan, .gap_connect (addr_of_nat 5) 1] :=
  (C8_advertisement_accepted { static_init with app_state := .APP_STATE_W4_SCAN_RESULT }
    (addr_of_nat 5) 1 0 200 [2, 1, 6] none (by decide) (by decide)).1

/-- C9: in state `APP_STATE_CONNECTED` with recorded candidate address `X` and
connection handle `h`, a service-connect-result with a non-success status makes
`blacklist_contains X` return 1 afterwards and issues exactly one call,
`gap_disconnect(h)`. -/
theorem C9_service_connect_failure (s : State) (pt : packet_type_t)
    (status num_instances poll_bitmap : Nat)
    (hwf : blacklist_wf s) (hs : s.app_state = .APP_STATE_CONNECTED)
    (hst : status ≠ ERROR_CODE_SUCCESS) :
    blacklist_contains (handle s (service_connect_result pt status num_instances poll_bitmap)).1
      s.report.address = 1 ∧
    (handle s (service_connect_result pt status num_instances poll_bitmap)).2 =
      [.gap_disconnect s.connection_handle] := by
  have _ := hs
  simp only [handle, service_connect_result, gatt_client_event_handler, if_neg hst]
  exact ⟨blacklist_contains_add_to_blacklist_self s _ hwf, rfl⟩

theorem C9_service_connect_failure_witness :
    blacklist_contains
      (handle
        { static_init with
          app_state := .APP_STATE_CONNECTED
          connection_handle := 7
          report := ⟨0, 0, 1, addr_of_nat 5, 0, 0, 0⟩ }
        (service_connect_result .HCI_EVENT_PACKET 5 0 0)).1
      (addr_of_nat 5) = 1 ∧
    (handle
        { static_init with
          app_state := .APP_STATE_CONNECTED
          connection_handle := 7
          report := ⟨0, 0, 1, addr_of_nat 5, 0, 0, 0⟩ }
        (service_connect_result .HCI_EVENT_PACKET 5 0 0)).2 = [.gap_disconnect 7] :=
  C9_service_connect_failure
    { static_init with
      app_state := .APP_STATE_CONNECTED
      connection_handle := 7
      report := ⟨0, 0, 1, addr_of_nat 5, 0, 0, 0⟩ }
    .HCI_EVENT_PACKET 5 0 0 (by decide) (by decide) (by decide)

/-- C10: with no target address configured, in every state the event
link-disconnected issues exactly one `gap_start_scan` (after disconnecting the
battery service client), sets the state to `APP_STATE_W4_SCAN_RESULT`, sets
`connection_handle` to `HCI_CON_HANDLE_INVALID`, and leaves the blacklist and
its cursor unchanged. -/
theorem C10_disconnect_restarts_scan (s : State) (c : Option Nat)
    (hcfg : s.cmdline_addr_found = 0) :
    (handle s (link_disconnected c)).2 =
      [.battery_service_client_disconnect s.battery_service_cid, .gap_start_scan] ∧
    (handle s (link_disconnected c)).2.count .gap_start_scan = 1 ∧
    (handle s (link_disconnected c)).1.app_state = .APP_STATE_W4_SCAN_RESULT ∧
    (handle s (link_disconnected c)).1.connection_handle = HCI_CON_HANDLE_INVALID ∧
    (handle s (link_disconnected c)).1.blacklist = s.blacklist ∧
    (handle s (link_disconnected c)).1.blacklist_index = s.blacklist_index := by
  simp [handle, link_disconnected, hci_event_handler, hcfg]

theorem C10_disconnect_restarts_scan_witness :
    (handle { static_init with app_state := .APP_STATE_CONNECTED, connection_handle := 7 }
      (link_disconnected none)).1.connection_handle = HCI_CON_HANDLE_INVALID :=
  (C10_disconnect_restarts_scan
    { static_init with app_state := .APP_STATE_CONNECTED, connection_handle := 7 } none
    (by decide)).2.2.2.1

/-! ## A failed service handshake -/

theorem run_failure_trace (s : State) (X : bd_addr_t) (t et rssi : Nat) (data : List Nat)
    (h : Nat) (pt : packet_type_t) (status num_instances poll_bitmap : Nat)
    (c1 c2 c4 : Option Nat)
    (hcfg : s.cmdline_addr_found = 0)
    (hs : s.app_state = .APP_STATE_W4_SCAN_RESULT) (hX : blacklist_contains s X = 0)
    (hst : status ≠ ERROR_CODE_SUCCESS) :
    run s (failure_trace X t et rssi data h pt status num_instances poll_bitmap c1 c2 c4) =
      { s with
        report := { s.report with address := X, address_type := t }
        blacklist := s.blacklist.set s.blacklist_index X
        blacklist_index := (s.blacklist_index + 1) % blacklist_size
        battery_service_cid := c2.getD s.battery_service_cid
        connection_handle := HCI_CON_HANDLE_INVALID
        app_state := .APP_STATE_W4_SCAN_RESULT } ∧
    actions s (failure_trace X t et rssi data h pt status num_instances poll_bitmap c1 c2 c4) =
      [.gap_stop_scan, .gap_connect X t, .battery_service_client_connect h 2000,
        .gap_disconnect h,
        .battery_service_client_disconnect (c2.getD s.battery_service_cid), .gap_start_scan] ∧
    (handle
      (run s ((failure_trace X t et rssi data h pt status num_instances poll_bitmap
        c1 c2 c4).take 3)) (link_disconnected c4)).2 =
      [.battery_service_client_disconnect (c2.getD s.battery_service_cid), .gap_start_scan] := by
  have h1 : handle s (advertisement X t et rssi data c1) =
      ({ s with
          report := { s.report with address := X, address_type := t }
          app_state := .APP_STATE_W4_CONNECT },
        [.gap_stop_scan, .gap_connect X t]) := by
    rw [handle_advertisement]
    simp [hs, hX]
  simp [run, actions, failure_trace, h1]
  simp [handle, link_established, service_connect_result, link_disconnected,
    hci_event_handler, gatt_client_event_handler, add_to_blacklist, hst, hcfg]

/-- C5: with no target address configured, starting in
`APP_STATE_W4_SCAN_RESULT` with `X` not in the blacklist, the trace
advertisement of `X`, link-established, service-connect-result with a
non-success status, link-disconnected ends in `APP_STATE_W4_SCAN_RESULT`; the
last event issues exactly one `gap_start_scan` (the only one of the trace) and
`X` is in the blacklist.  A further advertisement of `X` then issues no call and
leaves the state `APP_STATE_W4_SCAN_RESULT`, and a further advertisement of any
`Y` not in the blacklist issues `gap_connect(Y)`. -/
theorem C5_failed_handshake_demotes_and_rescans (s : State) (X : bd_addr_t)
    (t et rssi : Nat) (data : List Nat) (h : Nat) (pt : packet_type_t)
    (status num_instances poll_bitmap : Nat) (c1 c2 c4 : Option Nat)
    (hcfg : s.cmdline_addr_found = 0) (hwf : blacklist_wf s)
    (hs : s.app_state = .APP_STATE_W4_SCAN_RESULT) (hX : blacklist_contains s X = 0)
    (hst : status ≠ ERROR_CODE_SUCCESS) :
    (run s (failure_trace X t et rssi data h pt status num_instances poll_bitmap
      c1 c2 c4)).app_state = .APP_STATE_W4_SCAN_RESULT ∧
    (handle
      (run s ((failure_trace X t et rssi data h pt status num_instances poll_bitmap
        c1 c2 c4).take 3)) (link_disconnected c4)).2.count .gap_start_scan = 1 ∧
    (actions s (failure_trace X t et rssi data h pt status num_instances poll_bitmap
      c1 c2 c4)).count .gap_start_scan = 1 ∧
    blacklist_contains (run s (failure_trace X t et rssi data h pt status num_instances
      poll_bitmap c1 c2 c4)) X = 1 ∧
    (∀ (t5 et5 rssi5 : Nat) (data5 : List Nat) (c5 : Option Nat),
      (handle (run s (failure_trace X t et rssi data h pt status num_instances poll_bitmap
        c1 c2 c4)) (advertisement X t5 et5 rssi5 data5 c5)).2 = [] ∧
      (handle (run s (failure_trace X t et rssi data h pt status num_instances poll_bitmap
        c1 c2 c4)) (advertisement X t5 et5 rssi5 data5 c5)).1.app_state =
          .APP_STATE_W4_SCAN_RESULT) ∧
    (∀ (Y : bd_addr_t) (t6 et6 rssi6 : Nat) (data6 : List Nat) (c6 : Option Nat),
      blacklist_contains (run s (failure_trace X t et rssi data h pt status num_instances
        poll_bitmap c1 c2 c4)) Y = 0 →
      (handle (run s (failure_trace X t et rssi data h pt status num_instances poll_bitmap
        c1 c2 c4)) (advertisement Y t6 et6 rssi6 data6 c6)).2 =
          [.gap_stop_scan, .gap_connect Y t6]) := by
  obtain ⟨hrun, hact, hlast⟩ := run_failure_trace s X t et rssi data h pt status
    num_instances poll_bitmap c1 c2 c4 hcfg hs hX hst
  have hstate : (run s (failure_trace X t et rssi data h pt status num_instances
      poll_bitmap c1 c2 c4)).app_state = .APP_STATE_W4_SCAN_RESULT := by
    rw [hrun]
  have hin : blacklist_contains (run s (failure_trace X t et rssi data h pt status
      num_instances poll_bitmap c1 c2 c4)) X = 1 := by
    rw [blacklist_contains_congr (add_to_blacklist s X) _ X (by rw [hrun]; rfl)]
    exact blacklist_contains_add_to_blacklist_self s X hwf
  refine ⟨hstate, ?_, ?_, hin, ?_, ?_⟩
  · rw [hlast]
    simp
  · rw [hact]
    simp
  · intro t5 et5 rssi5 data5 c5
    rw [handle_advertisement]
    simp [hstate, hin]
  · intro Y t6 et6 rssi6 data6 c6 hY
    rw [handle_advertisement]
    simp [hstate, hY]

theorem C5_failed_handshake_demotes_and_rescans_witness :
    blacklist_contains
      (run { static_init with app_state := .APP_STATE_W4_SCAN_RESULT }
        (failure_trace (addr_of_nat 5) 1 0 200 [] 7 .HCI_EVENT_PACKET 5 0 0 none (some 1) none))
      (addr_of_nat 5) = 1 :=
  (C5_failed_handshake_demotes_and_rescans
    { static_init with app_state := .APP_STATE_W4_SCAN_RESULT }
    (addr_of_nat 5) 1 0 200 [] 7 .HCI_EVENT_PACKET 5 0 0 none (some 1) none
    (by decide) (by decide) (by decide) (by decide) (by decide)).2.2.2.1

/-! ## Invariants along event sequences -/

theorem run_cons (s : State) (e : Event) (es : List Event) :
    run s (e :: es) = run (handle s e).1 es := rfl

theorem handle_cmdline_unchanged (s : State) (e : Event) :
    (handle s e).1.cmdline_addr_found = s.cmdline_addr_found ∧
    (handle s e).1.cmdline_addr = s.cmdline_addr := by
  rcases e with ⟨pt, p, c⟩ | ⟨pt, p⟩
  · cases pt with
    | other n => simp [handle, hci_event_handler]
    | HCI_EVENT_PACKET =>
      cases p with
      | HCI_EVENT_META_GAP sub =>
        cases sub <;> simp only [handle, hci_event_handler] <;> (try split_ifs) <;> simp
      | _ =>
        simp only [handle, hci_event_handler]
        (try split_ifs)
        all_goals simp
  · cases p with
    | HCI_EVENT_GATTSERVICE_META sub =>
      cases sub <;> simp only [handle, gatt_client_event_handler, add_to_blacklist] <;>
        (try split_ifs) <;> simp
    | _ => simp [handle, gatt_client_event_handler]

theorem run_cmdline_unchanged (s : State) (es : List Event) :
    (run s es).cmdline_addr_found = s.cmdline_addr_found ∧
    (run s es).cmdline_addr = s.cmdline_addr := by
  induction es generalizing s with
  | nil => exact ⟨rfl, rfl⟩
  | cons e es ih =>
    rw [run_cons]
    obtain ⟨h1, h2⟩ := ih (handle s e).1
    obtain ⟨h3, h4⟩ := handle_cmdline_unchanged s e
    exact ⟨h1.trans h3, h2.trans h4⟩

/-- One event in fixed-target mode outside the scanning state: the state stays
outside the scanning state and the only scan or connect call that can be made
is `gap_connect(cmdline_addr, 0)`. -/
theorem target_mode_step (s : State) (e : Event)
    (hf : s.cmdline_addr_found ≠ 0) (hns : s.app_state ≠ .APP_STATE_W4_SCAN_RESULT) :
    (handle s e).1.app_state ≠ .APP_STATE_W4_SCAN_RESULT ∧
    ∀ act, act ∈ (handle s e).2 →
      act ≠ .gap_start_scan ∧ act ≠ .gap_stop_scan ∧
      ∀ addr t, act = .gap_connect addr t → addr = s.cmdline_addr ∧ t = 0 := by
  rcases e with ⟨pt, p, c⟩ | ⟨pt, p⟩
  · cases pt with
    | other n => simp [handle, hci_event_handler, hns]
    | HCI_EVENT_PACKET =>
      cases p with
      | HCI_EVENT_META_GAP sub =>
        cases sub <;> simp only [handle, hci_event_handler] <;> (try split_ifs) <;> simp [hns, hf]
      | BTSTACK_EVENT_STATE st =>
        simp only [handle, hci_event_handler]
        (try split_ifs) <;> simp [hns, hf]
      | _ =>
        simp only [handle, hci_event_handler]
        (try split_ifs)
        all_goals simp [hns, hf]
  · cases p with
    | HCI_EVENT_GATTSERVICE_META sub =>
      cases sub <;> simp only [handle, gatt_client_event_handler, add_to_blacklist] <;>
        (try split_ifs) <;> simp [hns, hf]
    | _ => simp [handle, gatt_client_event_handler, hns]

theorem target_mode_run (s : State) (es : List Event)
    (hf : s.cmdline_addr_found ≠ 0) (hns : s.app_state ≠ .APP_STATE_W4_SCAN_RESULT) :
    (run s es).app_state ≠ .APP_STATE_W4_SCAN_RESULT ∧
    ∀ act, act ∈ actions s es →
      act ≠ .gap_start_scan ∧ act ≠ .gap_stop_scan ∧
      ∀ addr t, act = .gap_connect addr t → addr = s.cmdline_addr ∧ t = 0 := by
  induction es generalizing s with
  | nil =>
    refine ⟨hns, ?_⟩
    intro act hact
    simp [actions] at hact
  | cons e es ih =>
    obtain ⟨h1, h2⟩ := target_mode_step s e hf hns
    obtain ⟨hc1, hc2⟩ := handle_cmdline_unchanged s e
    obtain ⟨h3, h4⟩ := ih (handle s e).1 (by rw [hc1]; exact hf) h1
    rw [run_cons]
    refine ⟨h3, ?_⟩
    intro act hact
    simp only [actions, List.mem_append] at hact
    rcases hact with hact | hact
    · exact h2 act hact
    · have := h4 act hact
      rw [hc2] at this
      exact this

/-- In scan mode a connect is only issued for an address that the blacklist
does not report, and the handler issuing it leaves the blacklist as it is. -/
theorem scan_mode_connect_step (s : State) (e : Event) (addr : bd_addr_t) (t : Nat)
    (hf : s.cmdline_addr_found = 0) (hc : Action.gap_connect addr t ∈ (handle s e).2) :
    blacklist_contains s addr = 0 ∧ (handle s e).1.blacklist = s.blacklist := by
  rcases e with ⟨pt, p, c⟩ | ⟨pt, p⟩
  · cases pt with
    | other n => simp [handle, hci_event_handler] at hc
    | HCI_EVENT_PACKET =>
      cases p with
      | HCI_EVENT_META_GAP sub =>
        cases sub <;> simp only [handle, hci_event_handler] at hc <;>
          (try split_ifs at hc) <;> simp at hc
      | GAP_EVENT_ADVERTISING_REPORT et ty a rssi data =>
        have hh := handle_advertisement s a ty et rssi data c
        unfold advertisement at hh
        rw [hh] at hc ⊢
        split_ifs at hc ⊢ with h1 h2
        · simp at hc
        · simp at hc
        · simp only [List.mem_cons, Action.gap_connect.injEq, List.mem_singleton] at hc
          rcases hc with hc | hc | hc
          · cases hc
          · rw [hc.1]
            exact ⟨by simpa using h2, rfl⟩
          · simp at hc
      | BTSTACK_EVENT_STATE st =>
        simp only [handle, hci_event_handler] at hc
        split_ifs at hc with h1 h2 <;> simp at hc
        exact absurd hf h2
      | HCI_EVENT_DISCONNECTION_COMPLETE =>
        simp only [handle, hci_event_handler] at hc
        split_ifs at hc <;> simp at hc
      | HCI_EVENT_GATTSERVICE_META sub => simp [handle, hci_event_handler] at hc
      | other code => simp [handle, hci_event_handler] at hc
  · cases p with
    | HCI_EVENT_GATTSERVICE_META sub =>
      cases sub <;> simp only [handle, gatt_client_event_handler] at hc <;>
        (try split_ifs at hc) <;> simp at hc
    | _ => simp [handle, gatt_client_event_handler] at hc

/-- One event in fixed-target mode outside the scanning state: no candidate is
ever recorded, so the only address ever inserted into the blacklist is the
all-zero one and the array stays all zero. -/
theorem target_mode_blacklist_step (s : State) (e : Event)
    (hns : s.app_state ≠ .APP_STATE_W4_SCAN_RESULT)
    (hr : s.report.address = bd_addr_zero)
    (hb : s.blacklist = List.replicate 20 bd_addr_zero) :
    (handle s e).1.report.address = bd_addr_zero ∧
    (handle s e).1.blacklist = List.replicate 20 bd_addr_zero := by
  rcases e with ⟨pt, p, c⟩ | ⟨pt, p⟩
  · cases pt with
    | other n => simp [handle, hci_event_handler, hr, hb]
    | HCI_EVENT_PACKET =>
      cases p with
      | HCI_EVENT_META_GAP sub =>
        cases sub <;> simp only [handle, hci_event_handler] <;> (try split_ifs) <;>
          simp [hns, hr, hb]
      | GAP_EVENT_ADVERTISING_REPORT et ty a rssi data =>
        simp only [handle, hci_event_handler]
        rw [if_pos hns]
        exact ⟨hr, hb⟩
      | BTSTACK_EVENT_STATE st =>
        simp only [handle, hci_event_handler]
        split_ifs <;> simp [hr, hb]
      | HCI_EVENT_DISCONNECTION_COMPLETE =>
        simp only [handle, hci_event_handler]
        split_ifs <;> simp [hr, hb]
      | HCI_EVENT_GATTSERVICE_META sub => simp [handle, hci_event_handler, hr, hb]
      | other code => simp [handle, hci_event_handler, hr, hb]
  · cases p with
    | HCI_EVENT_GATTSERVICE_META sub =>
      cases sub with
      | GATTSERVICE_SUBEVENT_BATTERY_SERVICE_CONNECTED status n bm =>
        simp only [handle, gatt_client_event_handler, add_to_blacklist]
        split_ifs
        · exact ⟨hr, hb⟩
        · refine ⟨hr, ?_⟩
          show s.blacklist.set s.blacklist_index s.report.address = _
          rw [hr, hb, List.set_replicate_self]
      | _ => exact ⟨hr, hb⟩
    | _ => exact ⟨hr, hb⟩

theorem target_mode_blacklist_run (s : State) (es : List Event)
    (hf : s.cmdline_addr_found ≠ 0)
    (hns : s.app_state ≠ .APP_STATE_W4_SCAN_RESULT)
    (hr : s.report.address = bd_addr_zero)
    (hb : s.blacklist = List.replicate 20 bd_addr_zero) :
    (run s es).app_state ≠ .APP_STATE_W4_SCAN_RESULT ∧
    (run s es).report.address = bd_addr_zero ∧
    (run s es).blacklist = List.replicate 20 bd_addr_zero := by
  induction es generalizing s with
  | nil => exact ⟨hns, hr, hb⟩
  | cons e es ih =>
    rw [run_cons]
    obtain ⟨h1, h2⟩ := target_mode_blacklist_step s e hns hr hb
    exact ih (handle s e).1 (by rw [(handle_cmdline_unchanged s e).1]; exact hf)
      (target_mode_step s e hf hns).1 h1 h2

theorem blacklist_contains_all_zero (s : State) (a : bd_addr_t)
    (hb : s.blacklist = List.replicate 20 bd_addr_zero) (ha : a ≠ bd_addr_zero) :
    blacklist_contains s a = 0 := by
  rw [blacklist_contains_eq_zero_iff]
  intro j hj he
  apply ha
  rw [← he, hb, List.getD_eq_getElem?_getD, List.getElem?_replicate, if_pos hj]
  rfl

/-! ## Claims on event sequences -/

/-- C6: with a target address configured (`cmdline_addr_found != 0`), along
every sequence of events from the idle state no `gap_start_scan` and no
`gap_stop_scan` is issued, the state is never `APP_STATE_W4_SCAN_RESULT`, and
every connect issued is `gap_connect(cmdline_addr, 0)`. -/
theorem C6_target_mode_never_scans (s0 : State) (es : List Event)
    (hf : s0.cmdline_addr_found ≠ 0) (hidle : s0.app_state = .APP_STATE_IDLE) :
    Action.gap_start_scan ∉ actions s0 es ∧
    Action.gap_stop_scan ∉ actions s0 es ∧
    (run s0 es).app_state ≠ .APP_STATE_W4_SCAN_RESULT ∧
    ∀ addr t, Action.gap_connect addr t ∈ actions s0 es → addr = s0.cmdline_addr ∧ t = 0 := by
  have hns : s0.app_state ≠ .APP_STATE_W4_SCAN_RESULT := by
    rw [hidle]
    decide
  obtain ⟨h1, h2⟩ := target_mode_run s0 es hf hns
  refine ⟨?_, ?_, h1, ?_⟩
  · intro hin
    exact (h2 _ hin).1 rfl
  · intro hin
    exact (h2 _ hin).2.1 rfl
  · intro addr t hin
    exact (h2 _ hin).2.2 addr t rfl

theorem C6_target_mode_never_scans_witness :
    (run (initial_state (some (addr_of_nat 9)))
      [transport_ready none, advertisement (addr_of_nat 5) 1 0 200 [] none,
        link_established 7 (some 1), link_disconnected none]).app_state ≠
      .APP_STATE_W4_SCAN_RESULT :=
  (C6_target_mode_never_scans (initial_state (some (addr_of_nat 9)))
    [transport_ready none, advertisement (addr_of_nat 5) 1 0 200 [] none,
      link_established 7 (some 1), link_disconnected none]
    (by decide) (by decide)).2.2.1

/-- C4, as stated, fails when the configured target is the all-zero address:
transport-ready in the initial state issues `gap_connect` for it without
consulting the blacklist, whose zero-initialised slots report it present. -/
theorem C4_counterexample :
    Action.gap_connect bd_addr_zero 0 ∈
      (handle (run (initial_state (some bd_addr_zero)) []) (transport_ready none)).2 ∧
    blacklist_contains (run (initial_state (some bd_addr_zero)) []) bd_addr_zero = 1 := by
  decide

/-- C4 (amended): when no target address is configured, or the configured
target is not the all-zero address, then along every sequence of events from
the initial state, whenever a handler issues `gap_connect(addr, type)`,
`blacklist_contains addr` is 0 in the state the handler is entered in and in
the state it leaves (the handler does not touch the blacklist). -/
theorem C4_connect_never_blacklisted (cfg : Option bd_addr_t) (es : List Event) (e : Event)
    (addr : bd_addr_t) (t : Nat) (hcfg : cfg ≠ some bd_addr_zero)
    (hc : Action.gap_connect addr t ∈ (handle (run (initial_state cfg) es) e).2) :
    blacklist_contains (run (initial_state cfg) es) addr = 0 ∧
    blacklist_contains (handle (run (initial_state cfg) es) e).1 addr = 0 := by
  cases cfg with
  | none =>
    have hf : (run (initial_state none) es).cmdline_addr_found = 0 := by
      rw [(run_cmdline_unchanged _ es).1]
      rfl
    obtain ⟨h1, h2⟩ := scan_mode_connect_step _ e addr t hf hc
    exact ⟨h1, by rw [blacklist_contains_congr _ _ addr h2]; exact h1⟩
  | some T =>
    have hT : T ≠ bd_addr_zero := by
      intro h
      exact hcfg (by rw [h])
    have hf0 : (initial_state (some T)).cmdline_addr_found ≠ 0 := by
      show (1 : Int) ≠ 0
      decide
    have hns0 : (initial_state (some T)).app_state ≠ .APP_STATE_W4_SCAN_RESULT := by
      show app_state_t.APP_STATE_IDLE ≠ app_state_t.APP_STATE_W4_SCAN_RESULT
      decide
    obtain ⟨hns, hr, hb⟩ := target_mode_blacklist_run (initial_state (some T)) es hf0 hns0 rfl rfl
    obtain ⟨hcf, hca⟩ := run_cmdline_unchanged (initial_state (some T)) es
    have hf : (run (initial_state (some T)) es).cmdline_addr_found ≠ 0 := by
      rw [hcf]
      exact hf0
    have haddr : addr = T := by
      have h := ((target_mode_step _ e hf hns).2 _ hc).2.2 addr t rfl
      rw [h.1, hca]
      rfl
    rw [haddr]
    exact ⟨blacklist_contains_all_zero _ T hb hT,
      blacklist_contains_all_zero _ T (target_mode_blacklist_step _ e hns hr hb).2 hT⟩

theorem C4_connect_never_blacklisted_witness :
    blacklist_contains (run (initial_state none) [transport_ready none]) (addr_of_nat 5) = 0 :=
  (C4_connect_never_blacklisted none [transport_ready none]
    (advertisement (addr_of_nat 5) 1 0 200 [] none) (addr_of_nat 5) 1
    (by decide) (by decide)).1

/-- C11: in state idle, transport-ready with no target configured issues
exactly one `gap_start_scan` (after setting the scan parameters) and no
connect, and the state becomes `APP_STATE_W4_SCAN_RESULT`; with a target
configured it issues exactly `gap_connect(cmdline_addr, 0)` and no start-scan,
and the state becomes `APP_STATE_W4_CONNECT`.  A `BTSTACK_EVENT_STATE` event
whose state is not `HCI_STATE_WORKING` changes nothing and issues no call. -/
theorem C11_transport_ready (s : State) (c : Option Nat)
    (hidle : s.app_state = .APP_STATE_IDLE) :
    (s.cmdline_addr_found = 0 →
      (handle s (transport_ready c)).2 =
        [.gap_set_scan_parameters 0 0x0030 0x0030, .gap_start_scan] ∧
      (handle s (transport_ready c)).2.count .gap_start_scan = 1 ∧
      (handle s (transport_ready c)).2.countP Action.is_connect = 0 ∧
      (handle s (transport_ready c)).1.app_state = .APP_STATE_W4_SCAN_RESULT) ∧
    (s.cmdline_addr_found ≠ 0 →
      (handle s (transport_ready c)).2 = [.gap_connect s.cmdline_addr 0] ∧
      (handle s (transport_ready c)).2.countP Action.is_connect = 1 ∧
      (handle s (transport_ready c)).2.count .gap_start_scan = 0 ∧
      (handle s (transport_ready c)).1.app_state = .APP_STATE_W4_CONNECT) ∧
    (∀ state, state ≠ HCI_STATE_WORKING →
      handle s (.hci .HCI_EVENT_PACKET (.BTSTACK_EVENT_STATE state) c) = (s, [])) := by
  have _ := hidle
  refine ⟨?_, ?_, ?_⟩
  · intro hf
    simp [handle, transport_ready, hci_event_handler, hf, Action.is_connect]
  · intro hf
    simp [handle, transport_ready, hci_event_handler, hf, Action.is_connect]
  · intro state hst
    simp [handle, hci_event_handler, hst]

theorem C11_transport_ready_witness :
    (handle (initial_state none) (transport_ready none)).2 =
      [.gap_set_scan_parameters 0 0x0030 0x0030, .gap_start_scan] :=
  ((C11_transport_ready (initial_state none) none (by decide)).1 (by decide)).1

/-- C12: for every handle `h`, link-established(`h`) handled in state
`APP_STATE_W4_CONNECT` issues exactly one call,
`battery_service_client_connect(h, ..)`, stores `h` in `connection_handle` and
sets the state to `APP_STATE_CONNECTED`; in any other state it changes nothing
and issues no call. -/
theorem C12_link_established (s : State) (h : Nat) (c : Option Nat) :
    (s.app_state = .APP_STATE_W4_CONNECT →
      (handle s (link_established h c)).2 = [.battery_service_client_connect h 2000] ∧
      (handle s (link_established h c)).1.connection_handle = h ∧
      (handle s (link_established h c)).1.app_state = .APP_STATE_CONNECTED) ∧
    (s.app_state ≠ .APP_STATE_W4_CONNECT →
      handle s (link_established h c) = (s, [])) := by
  constructor
  · intro hs
    simp [handle, link_established, hci_event_handler, hs]
  · intro hs
    simp [handle, link_established, hci_event_handler, hs]

/-- C14, as stated, fails: in fixed-target mode the disconnection case calls
`battery_service_client_disconnect` and returns without assigning `app_state`,
so from `APP_STATE_CONNECTED` the state stays `APP_STATE_CONNECTED`, not idle. -/
theorem C14_counterexample :
    (handle { initial_state (some (addr_of_nat 9)) with
        app_state := .APP_STATE_CONNECTED, connection_handle := 7, battery_service_cid := 1 }
      (link_disconnected none)).1.app_state ≠ .APP_STATE_IDLE ∧
    (handle { initial_state (some (addr_of_nat 9)) with
        app_state := .APP_STATE_CONNECTED, connection_handle := 7, battery_service_cid := 1 }
      (link_disconnected none)).2 ≠ [] := by
  decide

/-- C14 (amended): with a target address configured, in every state
link-disconnected issues no `gap_start_scan` and no `gap_connect`; its only
call is `battery_service_client_disconnect(battery_service_cid)`; it sets
`connection_handle` to `HCI_CON_HANDLE_INVALID` and leaves `app_state` and
every other variable as they were. -/
theorem C14_target_mode_disconnect (s : State) (c : Option Nat)
    (hf : s.cmdline_addr_found ≠ 0) :
    (handle s (link_disconnected c)).2 =
      [.battery_service_client_disconnect s.battery_service_cid] ∧
    (handle s (link_disconnected c)).2.count .gap_start_scan = 0 ∧
    (handle s (link_disconnected c)).2.countP Action.is_connect = 0 ∧
    (handle s (link_disconnected c)).1 =
      { s with connection_handle := HCI_CON_HANDLE_INVALID } ∧
    (handle s (link_disconnected c)).1.app_state = s.app_state := by
  simp [handle, link_disconnected, hci_event_handler, hf, Action.is_connect]

theorem C14_target_mode_disconnect_witness :
    (handle { initial_state (some (addr_of_nat 9)) with
        app_state := .APP_STATE_CONNECTED, connection_handle := 7, battery_service_cid := 1 }
      (link_disconnected none)).2 = [.battery_service_client_disconnect 1] :=
  (C14_target_mode_disconnect
    { initial_state (some (addr_of_nat 9)) with
      app_state := .APP_STATE_CONNECTED, connection_handle := 7, battery_service_cid := 1 }
    none (by decide)).1

/-- C15, as stated, fails: the failure branch of `gatt_client_event_handler`
does not assign `app_state`, so the state after a failed
service-connect-result in `APP_STATE_CONNECTED` is still `APP_STATE_CONNECTED`,
not `APP_STATE_W4_CONNECT`. -/
theorem C15_counterexample :
    (handle { static_init with app_state := .APP_STATE_CONNECTED, connection_handle := 7 }
      (service_connect_result .HCI_EVENT_PACKET 5 0 0)).1.app_state ≠
      .APP_STATE_W4_CONNECT := by
  decide

/-- C15 (amended): for every state with `app_state = APP_STATE_CONNECTED` and
every non-success status, handling the service-connect-result leaves
`app_state` at `APP_STATE_CONNECTED`. -/
theorem C15_failure_keeps_connected (s : State) (pt : packet_type_t)
    (status num_instances poll_bitmap : Nat)
    (hs : s.app_state = .APP_STATE_CONNECTED) (hst : status ≠ ERROR_CODE_SUCCESS) :
    (handle s (service_connect_result pt status num_instances poll_bitmap)).1.app_state =
      .APP_STATE_CONNECTED := by
  simp [handle, service_connect_result, gatt_client_event_handler, add_to_blacklist, hst, hs]

theorem C15_failure_keeps_connected_witness :
    (handle { static_init with app_state := .APP_STATE_CONNECTED, connection_handle := 7 }
      (service_connect_result .HCI_EVENT_PACKET 5 0 0)).1.app_state =
      .APP_STATE_CONNECTED :=
  C15_failure_keeps_connected
    { static_init with app_state := .APP_STATE_CONNECTED, connection_handle := 7 }
    .HCI_EVENT_PACKET 5 0 0 (by decide) (by decide)

/-- C19: in every state, an inbound event of an unrecognised kind (a packet
type other than `HCI_EVENT_PACKET` or an event without a `case` label in
`hci_event_handler`, an event other than a GATT service meta event or a
subevent without a `case` label in `gatt_client_event_handler`) leaves the
whole state unchanged and issues no call. -/
theorem C19_unrecognised_ignored (s : State) (e : Event)
    (hkind : spec_event_kind e = .unrecognised) :
    handle s e = (s, []) := by
  rcases e with ⟨pt, p, c⟩ | ⟨pt, p⟩
  · cases pt with
    | other n => rfl
    | HCI_EVENT_PACKET =>
      cases p with
      | BTSTACK_EVENT_STATE st =>
        have hst : st ≠ HCI_STATE_WORKING := by
          intro h
          simp [spec_event_kind, h] at hkind
        simp [handle, hci_event_handler, hst]
      | GAP_EVENT_ADVERTISING_REPORT et ty a rssi data => simp [spec_event_kind] at hkind
      | HCI_EVENT_META_GAP sub =>
        cases sub with
        | other code => rfl
        | GAP_SUBEVENT_LE_CONNECTION_COMPLETE h => simp [spec_event_kind] at hkind
      | HCI_EVENT_DISCONNECTION_COMPLETE => simp [spec_event_kind] at hkind
      | HCI_EVENT_GATTSERVICE_META sub => rfl
      | other code => rfl
  · cases p with
    | HCI_EVENT_GATTSERVICE_META sub =>
      cases sub with
      | other code => rfl
      | _ => simp [spec_event_kind] at hkind
    | _ => rfl

theorem C19_unrecognised_ignored_witness :
    handle { static_init with app_state := .APP_STATE_CONNECTED, connection_handle := 7 }
        (.gatt (.other 3) (.HCI_EVENT_GATTSERVICE_META (.other 200))) =
      ({ static_init with app_state := .APP_STATE_CONNECTED, connection_handle := 7 }, []) :=
  C19_unrecognised_ignored
    { static_init with app_state := .APP_STATE_CONNECTED, connection_handle := 7 }
    (.gatt (.other 3) (.HCI_EVENT_GATTSERVICE_META (.other 200))) (by decide)

theorem C12_link_established_witness :
    (handle { static_init with app_state := .APP_STATE_W4_CONNECT }
      (link_established 7 (some 1))).2 = [.battery_service_client_connect 7 2000] :=
  ((C12_link_established { static_init with app_state := .APP_STATE_W4_CONNECT } 7 (some 1)).1
    (by decide)).1

/-! ## The cursor -/

theorem insert_all_cons (s : State) (x : bd_addr_t) (xs : List bd_addr_t) :
    insert_all s (x :: xs) = insert_all (add_to_blacklist s x) xs := rfl

theorem insert_all_blacklist_index (s : State) (xs : List bd_addr_t) (hwf : blacklist_wf s) :
    (insert_all s xs).blacklist_index = (s.blacklist_index + xs.length) % 20 := by
  induction xs generalizing s with
  | nil =>
    have h := hwf.2
    simp only [insert_all, List.foldl_nil, List.length_nil]
    omega
  | cons x xs ih =>
    rw [insert_all_cons, ih _ (blacklist_wf_add_to_blacklist s x hwf)]
    simp only [add_to_blacklist, blacklist_size_eq, List.length_cons]
    omega

/-- C17: for a blacklist with cursor `c` in `0..19`, `add_to_blacklist a` sets
slot `c` to `a`, leaves every other slot (and the number of slots) unchanged,
and sets the cursor to `(c + 1) mod 20`; the cursor is in `0..19` after any
sequence of insertions from the initial state, and 20 consecutive insertions
bring the cursor back to where it started. -/
theorem C17_add_to_blacklist_frame (s : State) (a : bd_addr_t) (xs : List bd_addr_t)
    (hwf : blacklist_wf s) (hxs : xs.length = 20) :
    (add_to_blacklist s a).blacklist[s.blacklist_index]? = some a ∧
    (∀ j, j ≠ s.blacklist_index → (add_to_blacklist s a).blacklist[j]? = s.blacklist[j]?) ∧
    (add_to_blacklist s a).blacklist.length = 20 ∧
    (add_to_blacklist s a).blacklist_index = (s.blacklist_index + 1) % 20 ∧
    (∀ ys, (insert_all static_init ys).blacklist_index < 20) ∧
    (insert_all s xs).blacklist_index = s.blacklist_index := by
  obtain ⟨hl, hi⟩ := hwf
  refine ⟨?_, ?_, ?_, ?_, ?_, ?_⟩
  · simp only [add_to_blacklist]
    rw [List.getElem?_set_self (by omega)]
  · intro j hj
    simp only [add_to_blacklist]
    rw [List.getElem?_set_ne (Ne.symm hj)]
  · simp [add_to_blacklist, hl]
  · simp [add_to_blacklist, blacklist_size_eq]
  · intro ys
    rw [(insert_all_ring ys).2.1]
    omega
  · rw [insert_all_blacklist_index s xs ⟨hl, hi⟩, hxs]
    omega

theorem C17_add_to_blacklist_frame_witness :
    (insert_all (insert_all static_init [addr_of_nat 1, addr_of_nat 2, addr_of_nat 3])
      ((List.range 20).map addr_of_nat)).blacklist_index =
    (insert_all static_init [addr_of_nat 1, addr_of_nat 2, addr_of_nat 3]).blacklist_index :=
  (C17_add_to_blacklist_frame
    (insert_all static_init [addr_of_nat 1, addr_of_nat 2, addr_of_nat 3]) (addr_of_nat 4)
    ((List.range 20).map addr_of_nat) (by decide) (by decide)).2.2.2.2.2

/-! ## Start-up -/

theorem btstack_main_no_arguments (sscanf_bd_addr : String → bd_addr_t → Int × bd_addr_t)
    (prog : String) :
    btstack_main sscanf_bd_addr [prog] static_init =
      (0, initial_state none, battery_service_client_setup ++ [.hci_power_control_on]) := rfl

theorem btstack_main_with_address (sscanf_bd_addr : String → bd_addr_t → Int × bd_addr_t)
    (prog v : String) (a : bd_addr_t)
    (hv : sscanf_bd_addr v bd_addr_zero = (1, a)) :
    btstack_main sscanf_bd_addr [prog, "-a", v] static_init =
      (0, initial_state (some a), battery_service_client_setup ++ [.hci_power_control_on]) := by
  have h1 : sscanf_bd_addr v static_init.cmdline_addr = (1, a) := hv
  simp [btstack_main, btstack_main_loop, h1, initial_state]

/-- C13 at the failing input: when the value after a first address flag is
accepted by the parser, a second flag that ends the argument vector is not
rejected.  `cmdline_addr_found` still holds the result of the first flag, so
`btstack_main` returns 0, sets up the services and powers the stack on. -/
theorem C13_trailing_flag_not_rejected
    (sscanf_bd_addr : String → bd_addr_t → Int × bd_addr_t) (prog v : String) (s : State)
    (hv : (sscanf_bd_addr v s.cmdline_addr).1 ≠ 0) :
    (btstack_main sscanf_bd_addr [prog, "-a", v, "-a"] s).1 = 0 ∧
    (btstack_main sscanf_bd_addr [prog, "-a", v, "-a"] s).2.2 =
      battery_service_client_setup ++ [.hci_power_control_on] ∧
    (btstack_main sscanf_bd_addr [prog, "-a", v, "--address"] s).1 = 0 := by
  simp [btstack_main, btstack_main_loop, hv]

theorem C13_trailing_flag_not_rejected_witness :
    (btstack_main sample_sscanf_bd_addr
      ["gatt_battery_query", "-a", "00:11:22:33:44:55", "-a"] static_init).1 = 0 :=
  (C13_trailing_flag_not_rejected sample_sscanf_bd_addr "gatt_battery_query"
    "00:11:22:33:44:55" static_init (by decide)).1

/-! ## The connection handle -/

/-- One event keeps the connection handle at the sentinel as long as the run
stays in the phase after a link-disconnected event. -/
theorem link_phase_step_handle (s : State) (ph : link_phase_t) (e : Event)
    (hinv : ph = .unlinked → s.connection_handle = HCI_CON_HANDLE_INVALID) :
    link_phase_step s ph e = .unlinked →
      (handle s e).1.connection_handle = HCI_CON_HANDLE_INVALID := by
  rcases e with ⟨pt, p, c⟩ | ⟨pt, p⟩
  · cases pt with
    | other n => exact hinv
    | HCI_EVENT_PACKET =>
      cases p with
      | BTSTACK_EVENT_STATE st =>
        simp only [handle, hci_event_handler, link_phase_step]
        split_ifs <;> exact hinv
      | GAP_EVENT_ADVERTISING_REPORT et ty a rssi data =>
        have hh := handle_advertisement s a ty et rssi data c
        unfold advertisement at hh
        rw [hh]
        simp only [link_phase_step]
        split_ifs <;> exact hinv
      | HCI_EVENT_META_GAP sub =>
        cases sub with
        | other code => exact hinv
        | GAP_SUBEVENT_LE_CONNECTION_COMPLETE hdl =>
          simp only [handle, hci_event_handler, link_phase_step]
          by_cases h1 : s.app_state = .APP_STATE_W4_CONNECT
          · simp [h1]
          · simpa [h1] using hinv
      | HCI_EVENT_DISCONNECTION_COMPLETE =>
        intro _
        simp only [handle, hci_event_handler]
        split_ifs <;> rfl
      | HCI_EVENT_GATTSERVICE_META sub => exact hinv
      | other code => exact hinv
  · cases p with
    | HCI_EVENT_GATTSERVICE_META sub =>
      cases sub with
      | GATTSERVICE_SUBEVENT_BATTERY_SERVICE_CONNECTED status n bm =>
        simp only [handle, gatt_client_event_handler, add_to_blacklist, link_phase_step]
        split_ifs <;> exact hinv
      | _ => exact hinv
    | _ => exact hinv

theorem link_phase_handle (s : State) (ph : link_phase_t) (es : List Event)
    (hinv : ph = .unlinked → s.connection_handle = HCI_CON_HANDLE_INVALID) :
    link_phase s ph es = .unlinked →
      (run s es).connection_handle = HCI_CON_HANDLE_INVALID := by
  induction es generalizing s ph with
  | nil => exact hinv
  | cons e es ih =>
    rw [run_cons]
    exact ih (handle s e).1 (link_phase_step s ph e) (link_phase_step_handle s ph e hinv)

/-- C16, as stated, fails in states with `app_state` idle or
`APP_STATE_W4_SCAN_RESULT`.  Transport-ready is acted on in every state, so
when it arrives during a link with handle 7 the state becomes
`APP_STATE_W4_SCAN_RESULT` while `connection_handle` is still 7.  Also,
`connection_handle` is a static without initialiser: when `btstack_main`
returns it is 0, not `HCI_CON_HANDLE_INVALID`. -/
theorem C16_counterexample :
    (run (initial_state none)
      [transport_ready none, advertisement (addr_of_nat 5) 1 0 200 [] none,
        link_established 7 (some 1), transport_ready none]).app_state =
      .APP_STATE_W4_SCAN_RESULT ∧
    (run (initial_state none)
      [transport_ready none, advertisement (addr_of_nat 5) 1 0 200 [] none,
        link_established 7 (some 1), transport_ready none]).connection_handle ≠
      HCI_CON_HANDLE_INVALID ∧
    (btstack_main sample_sscanf_bd_addr ["gatt_battery_query"] static_init).2.1.app_state =
      .APP_STATE_IDLE ∧
    (btstack_main sample_sscanf_bd_addr ["gatt_battery_query"]
      static_init).2.1.connection_handle ≠ HCI_CON_HANDLE_INVALID := by
  decide

/-- C16 (amended): for every configuration and every sequence of inbound events
from the initial state, `connection_handle` equals `HCI_CON_HANDLE_INVALID` in
every reached state that lies after a link-disconnected event with no
link-established event accepted (in `APP_STATE_W4_CONNECT`) since. -/
theorem C16_handle_invalid_after_disconnect (cfg : Option bd_addr_t) (es : List Event)
    (hph : link_phase (initial_state cfg) .initial es = .unlinked) :
    (run (initial_state cfg) es).connection_handle = HCI_CON_HANDLE_INVALID :=
  link_phase_handle (initial_state cfg) .initial es (fun h => by cases h) hph

theorem C16_handle_invalid_after_disconnect_witness :
    (run (initial_state none)
      [transport_ready none, advertisement (addr_of_nat 5) 1 0 200 [] none,
        link_established 7 (some 1), link_disconnected none,
        link_established 8 (some 2)]).connection_handle = HCI_CON_HANDLE_INVALID :=
  C16_handle_invalid_after_disconnect none
    [transport_ready none, advertisement (addr_of_nat 5) 1 0 200 [] none,
      link_established 7 (some 1), link_disconnected none, link_established 8 (some 2)]
    (by decide)

/-! ## Sequences of advertisements -/

theorem run_append (s : State) (es1 es2 : List Event) :
    run s (es1 ++ es2) = run (run s es1) es2 := by
  simp [run, List.foldl_append]

theorem actions_append (s : State) (es1 es2 : List Event) :
    actions s (es1 ++ es2) = actions s es1 ++ actions (run s es1) es2 := by
  induction es1 generalizing s with
  | nil => rfl
  | cons e es ih =>
    show (handle s e).2 ++ actions (handle s e).1 (es ++ es2) =
      ((handle s e).2 ++ actions (handle s e).1 es) ++ actions (run (handle s e).1 es) es2
    rw [ih, List.append_assoc]

theorem handle_adv_listed (s : State) (x : adv_t)
    (hs : s.app_state = .APP_STATE_W4_SCAN_RESULT) (hx : blacklist_contains s x.address ≠ 0) :
    (handle s x.event).2 = [] ∧
    (handle s x.event).1.app_state = .APP_STATE_W4_SCAN_RESULT ∧
    (handle s x.event).1.blacklist = s.blacklist := by
  unfold adv_t.event
  rw [handle_advertisement]
  simp [hs, hx]

theorem handle_adv_accepted (s : State) (x : adv_t)
    (hs : s.app_state = .APP_STATE_W4_SCAN_RESULT) (hx : blacklist_contains s x.address = 0) :
    (handle s x.event).2 = [.gap_stop_scan, .gap_connect x.address x.address_type] ∧
    (handle s x.event).1.app_state = .APP_STATE_W4_CONNECT := by
  unfold adv_t.event
  rw [handle_advertisement]
  simp [hs, hx]

theorem handle_adv_stale (s : State) (x : adv_t)
    (hs : s.app_state ≠ .APP_STATE_W4_SCAN_RESULT) :
    handle s x.event = (s, []) := by
  unfold adv_t.event
  rw [handle_advertisement]
  simp [hs]

theorem run_adv_listed (s : State) (l : List adv_t)
    (hs : s.app_state = .APP_STATE_W4_SCAN_RESULT)
    (hl : ∀ p, p ∈ l → blacklist_contains s p.address ≠ 0) :
    actions s (l.map adv_t.event) = [] ∧
    (run s (l.map adv_t.event)).app_state = .APP_STATE_W4_SCAN_RESULT ∧
    (run s (l.map adv_t.event)).blacklist = s.blacklist := by
  induction l generalizing s with
  | nil => exact ⟨rfl, hs, rfl⟩
  | cons x xs ih =>
    obtain ⟨h1, h2, h3⟩ := handle_adv_listed s x hs (hl x (List.mem_cons_self x xs))
    have hl1 : ∀ p, p ∈ xs → blacklist_contains (handle s x.event).1 p.address ≠ 0 := by
      intro p hp
      rw [blacklist_contains_congr s _ _ h3]
      exact hl p (List.mem_cons_of_mem x hp)
    obtain ⟨h4, h5, h6⟩ := ih (handle s x.event).1 h2 hl1
    simp only [List.map_cons, actions, run_cons]
    exact ⟨by rw [h1, h4]; rfl, h5, h6.trans h3⟩

theorem run_adv_stale (s : State) (l : List adv_t)
    (hs : s.app_state ≠ .APP_STATE_W4_SCAN_RESULT) :
    actions s (l.map adv_t.event) = [] ∧ run s (l.map adv_t.event) = s := by
  induction l with
  | nil => exact ⟨rfl, rfl⟩
  | cons x xs ih =>
    simp only [List.map_cons, actions, run_cons, handle_adv_stale s x hs]
    exact ⟨by rw [ih.1]; rfl, ih.2⟩

theorem exists_first_unlisted (s : State) (l : List adv_t)
    (h : ∃ p, p ∈ l ∧ blacklist_contains s p.address = 0) :
    ∃ pre r post, l = pre ++ r :: post ∧
      (∀ p, p ∈ pre → blacklist_contains s p.address ≠ 0) ∧
      blacklist_contains s r.address = 0 := by
  induction l with
  | nil =>
    obtain ⟨p, hp, _⟩ := h
    simp at hp
  | cons x xs ih =>
    by_cases hx : blacklist_contains s x.address = 0
    · exact ⟨[], x, xs, rfl, by simp, hx⟩
    · obtain ⟨p, hp, hp0⟩ := h
      have hpx : p ∈ xs := by
        rcases List.mem_cons.1 hp with hpe | hpm
        · rw [hpe] at hp0
          exact absurd hp0 hx
        · exact hpm
      obtain ⟨pre, r, post, hsplit, hpre, hr⟩ := ih ⟨p, hpx, hp0⟩
      refine ⟨x :: pre, r, post, by rw [hsplit]; rfl, ?_, hr⟩
      intro q hq
      rcases List.mem_cons.1 hq with hqe | hqm
      · rw [hqe]
        exact hx
      · exact hpre q hqm

/-- C18: for every blacklist and every list of advertisements delivered one
after the other starting in `APP_STATE_W4_SCAN_RESULT`: if all advertised
addresses are in the blacklist, no call is issued and the state stays
`APP_STATE_W4_SCAN_RESULT`; if some advertised address is not in the
blacklist, the list splits at the first such advertisement `r`, the calls over
the whole list are exactly one `gap_stop_scan` and one `gap_connect` for `r`,
and every advertisement before `r` and after `r` issues no call and does not
change `app_state`. -/
theorem C18_first_unlisted_advertisement_wins (s : State) (l : List adv_t)
    (hs : s.app_state = .APP_STATE_W4_SCAN_RESULT) :
    ((∀ p, p ∈ l → blacklist_contains s p.address ≠ 0) →
      actions s (l.map adv_t.event) = [] ∧
      (run s (l.map adv_t.event)).app_state = .APP_STATE_W4_SCAN_RESULT) ∧
    ((∃ p, p ∈ l ∧ blacklist_contains s p.address = 0) →
      ∃ pre r post, l = pre ++ r :: post ∧
        (∀ p, p ∈ pre → blacklist_contains s p.address ≠ 0) ∧
        blacklist_contains s r.address = 0 ∧
        actions s (l.map adv_t.event) =
          [.gap_stop_scan, .gap_connect r.address r.address_type] ∧
        (actions s (l.map adv_t.event)).count .gap_stop_scan = 1 ∧
        (actions s (l.map adv_t.event)).countP Action.is_connect = 1 ∧
        (run s (l.map adv_t.event)).app_state = .APP_STATE_W4_CONNECT ∧
        (∀ p1 x p2, pre = p1 ++ x :: p2 →
          (handle (run s (p1.map adv_t.event)) x.event).2 = [] ∧
          (handle (run s (p1.map adv_t.event)) x.event).1.app_state =
            (run s (p1.map adv_t.event)).app_state) ∧
        (∀ q1 y q2, post = q1 ++ y :: q2 →
          (handle (run s ((pre ++ r :: q1).map adv_t.event)) y.event).2 = [] ∧
          (handle (run s ((pre ++ r :: q1).map adv_t.event)) y.event).1.app_state =
            (run s ((pre ++ r :: q1).map adv_t.event)).app_state)) := by
  constructor
  · intro hall
    obtain ⟨h1, h2, _⟩ := run_adv_listed s l hs hall
    exact ⟨h1, h2⟩
  · intro hex
    obtain ⟨pre, r, post, hsplit, hpre, hr⟩ := exists_first_unlisted s l hex
    refine ⟨pre, r, post, hsplit, hpre, hr, ?_⟩
    obtain ⟨ha, hst, hbl⟩ := run_adv_listed s pre hs hpre
    -- the accepted advertisement, handled in the state after the listed ones
    have hr1 : blacklist_contains (run s (pre.map adv_t.event)) r.address = 0 := by
      rw [blacklist_contains_congr s _ _ hbl]
      exact hr
    have hacc : (handle (run s (pre.map adv_t.event)) r.event).2 =
          [.gap_stop_scan, .gap_connect r.address r.address_type] ∧
        (handle (run s (pre.map adv_t.event)) r.event).1.app_state =
          .APP_STATE_W4_CONNECT := handle_adv_accepted _ r hst hr1
    have hne : (handle (run s (pre.map adv_t.event)) r.event).1.app_state ≠
        .APP_STATE_W4_SCAN_RESULT := by
      rw [hacc.2]
      decide
    -- the state after `pre ++ r :: q` for any list `q` of further advertisements
    have hafter : ∀ q : List adv_t,
        actions s ((pre ++ r :: q).map adv_t.event) =
          [.gap_stop_scan, .gap_connect r.address r.address_type] ∧
        run s ((pre ++ r :: q).map adv_t.event) =
          (handle (run s (pre.map adv_t.event)) r.event).1 := by
      intro q
      obtain ⟨hq1, hq2⟩ := run_adv_stale _ q hne
      rw [List.map_append, List.map_cons, actions_append, run_append, ha]
      simp only [actions, run_cons, hq1, hq2, hacc.1, List.nil_append, List.append_nil]
      exact ⟨trivial, trivial⟩
    have hacts := (hafter post).1
    rw [← hsplit] at hacts
    have hrun := (hafter post).2
    rw [← hsplit] at hrun
    refine ⟨hacts, ?_, ?_, ?_, ?_, ?_⟩
    · rw [hacts]
      simp
    · rw [hacts]
      simp [Action.is_connect]
    · rw [hrun]
      exact hacc.2
    · intro p1 x p2 hp
      have hp1 : ∀ p, p ∈ p1 → blacklist_contains s p.address ≠ 0 := by
        intro p hmem
        exact hpre p (by rw [hp]; simp [hmem])
      obtain ⟨_, hst1, hbl1⟩ := run_adv_listed s p1 hs hp1
      have hx : blacklist_contains (run s (p1.map adv_t.event)) x.address ≠ 0 := by
        rw [blacklist_contains_congr s _ _ hbl1]
        exact hpre x (by rw [hp]; simp)
      obtain ⟨h1, h2, _⟩ := handle_adv_listed _ x hst1 hx
      exact ⟨h1, by rw [h2, hst1]⟩
    · intro q1 y q2 _
      rw [(hafter q1).2, handle_adv_stale _ y hne]
      exact ⟨rfl, rfl⟩

theorem C18_first_unlisted_advertisement_wins_witness :
    (actions { static_init with app_state := .APP_STATE_W4_SCAN_RESULT }
        ([⟨bd_addr_zero, 0, 0, 190, [], none⟩, ⟨addr_of_nat 5, 1, 0, 200, [], none⟩,
          ⟨addr_of_nat 6, 1, 0, 210, [], none⟩].map adv_t.event)).countP Action.is_connect =
      1 := by
  obtain ⟨pre, r, post, _, _, _, _, _, hcount, _⟩ :=
    (C18_first_unlisted_advertisement_wins
      { static_init with app_state := .APP_STATE_W4_SCAN_RESULT }
      [⟨bd_addr_zero, 0, 0, 190, [], none⟩, ⟨addr_of_nat 5, 1, 0, 200, [], none⟩,
        ⟨addr_of_nat 6, 1, 0, 210, [], none⟩] (by decide)).2
      ⟨⟨addr_of_nat 5, 1, 0, 200, [], none⟩, by decide, by decide⟩
  exact hcount

/-! ## The recorded candidate and the last connect -/

theorem last_connect_append (acts new : List Action) :
    last_connect (acts ++ new) =
      new.foldl
        (fun acc act =>
          match act with
          | .gap_connect addr addr_type => some (addr, addr_type)
          | _ => acc)
        (last_connect acts) := by
  simp [last_connect, List.foldl_append]

/-- One event in scan mode: if the state after it is `APP_STATE_W4_CONNECT` or
`APP_STATE_CONNECTED`, the recorded candidate is the argument of the last
`gap_connect` issued so far. -/
theorem candidate_step (s : State) (acts : List Action) (e : Event)
    (hf : s.cmdline_addr_found = 0)
    (hinv : s.app_state = .APP_STATE_W4_CONNECT ∨ s.app_state = .APP_STATE_CONNECTED →
      last_connect acts = some (s.report.address, s.report.address_type)) :
    (handle s e).1.app_state = .APP_STATE_W4_CONNECT ∨
        (handle s e).1.app_state = .APP_STATE_CONNECTED →
      last_connect (acts ++ (handle s e).2) =
        some ((handle s e).1.report.address, (handle s e).1.report.address_type) := by
  rcases e with ⟨pt, p, c⟩ | ⟨pt, p⟩
  · cases pt with
    | other n =>
      intro h
      simpa [handle, hci_event_handler] using hinv h
    | HCI_EVENT_PACKET =>
      cases p with
      | BTSTACK_EVENT_STATE st =>
        simp only [handle, hci_event_handler]
        split_ifs with h1 h2
        · intro h
          simpa using hinv h
        · exact absurd hf h2
        · intro h
          simp at h
      | GAP_EVENT_ADVERTISING_REPORT et ty a rssi data =>
        have hh := handle_advertisement s a ty et rssi data c
        unfold advertisement at hh
        rw [hh]
        split_ifs with h1 h2
        · intro h
          simpa using hinv h
        · intro h
          exfalso
          have h1 : s.app_state = .APP_STATE_W4_SCAN_RESULT := by simpa using h1
          simp [h1] at h
        · intro _
          simp [last_connect_append]
      | HCI_EVENT_META_GAP sub =>
        cases sub with
        | other code =>
          intro h
          simpa [handle, hci_event_handler] using hinv h
        | GAP_SUBEVENT_LE_CONNECTION_COMPLETE hdl =>
          simp only [handle, hci_event_handler]
          split_ifs with h1
          · intro h
            simpa using hinv h
          · intro _
            have h1 : s.app_state = .APP_STATE_W4_CONNECT := by simpa using h1
            simpa [last_connect_append] using hinv (Or.inl h1)
      | HCI_EVENT_DISCONNECTION_COMPLETE =>
        simp only [handle, hci_event_handler]
        split_ifs with h1
        · exact absurd hf h1
        · intro h
          simp at h
      | HCI_EVENT_GATTSERVICE_META sub =>
        intro h
        simpa [handle, hci_event_handler] using hinv h
      | other code =>
        intro h
        simpa [handle, hci_event_handler] using hinv h
  · cases p with
    | HCI_EVENT_GATTSERVICE_META sub =>
      cases sub with
      | GATTSERVICE_SUBEVENT_BATTERY_SERVICE_CONNECTED status n bm =>
        simp only [handle, gatt_client_event_handler, add_to_blacklist]
        split_ifs with h1
        · intro h
          simpa [last_connect_append] using hinv h
        · intro h
          simpa [last_connect_append] using hinv h
      | _ =>
        intro h
        simpa [handle, gatt_client_event_handler] using hinv h
    | _ =>
      intro h
      simpa [handle, gatt_client_event_handler] using hinv h

theorem candidate_run (s : State) (es : List Event) (hf : s.cmdline_addr_found = 0)
    (hs : s.app_state = .APP_STATE_IDLE) :
    (run s es).app_state = .APP_STATE_W4_CONNECT ∨
        (run s es).app_state = .APP_STATE_CONNECTED →
      last_connect (actions s es) =
        some ((run s es).report.address, (run s es).report.address_type) := by
  induction es using List.reverseRecOn with
  | nil =>
    intro h
    exfalso
    have h0 : run s [] = s := rfl
    rw [h0, hs] at h
    simp at h
  | append_singleton es e ih =>
    have hr : run s (es ++ [e]) = (handle (run s es) e).1 := by
      rw [run_append]
      rfl
    have ha : actions s (es ++ [e]) = actions s es ++ (handle (run s es) e).2 := by
      rw [actions_append]
      simp [actions]
    rw [hr, ha]
    exact candidate_step (run s es) (actions s es) e
      (by rw [(run_cmdline_unchanged s es).1]; exact hf) ih

/-- C20: with no target address configured, after every sequence of events
from the initial state, if the state is `APP_STATE_W4_CONNECT` or
`APP_STATE_CONNECTED` then `report.address` and `report.address_type` are the
arguments of the last `gap_connect` issued; so a failed service-connect-result
handled in `APP_STATE_CONNECTED` inserts into the blacklist exactly the address
last connected to. -/
theorem C20_candidate_is_last_connect (es : List Event) :
    ((run (initial_state none) es).app_state = .APP_STATE_W4_CONNECT ∨
        (run (initial_state none) es).app_state = .APP_STATE_CONNECTED →
      last_connect (actions (initial_state none) es) =
        some ((run (initial_state none) es).report.address,
          (run (initial_state none) es).report.address_type)) ∧
    ((run (initial_state none) es).app_state = .APP_STATE_CONNECTED →
      ∀ (pt : packet_type_t) (status num_instances poll_bitmap : Nat),
        status ≠ ERROR_CODE_SUCCESS →
        ∃ a t, last_connect (actions (initial_state none) es) = some (a, t) ∧
          (handle (run (initial_state none) es)
            (service_connect_result pt status num_instances poll_bitmap)).1 =
            add_to_blacklist (run (initial_state none) es) a) := by
  have key := candidate_run (initial_state none) es rfl rfl
  refine ⟨key, ?_⟩
  intro hc pt status n bm hst
  refine ⟨_, _, key (Or.inr hc), ?_⟩
  simp [handle, service_connect_result, gatt_client_event_handler, hst]

theorem C20_candidate_is_last_connect_witness :
    last_connect (actions (initial_state none)
      [transport_ready none, advertisement (addr_of_nat 5) 1 0 200 [] none,
        link_established 7 (some 1)]) = some (addr_of_nat 5, 1) :=
  (C20_candidate_is_last_connect
    [transport_ready none, advertisement (addr_of_nat 5) 1 0 200 [] none,
      link_established 7 (some 1)]).1 (by decide)

end BatteryQuery
